import Mathlib

/-!
Verification of the EXIF metadata extractor (src/metadata_extractor.py).

The embedding models the Python values that occur as EXIF tag values.
Python floats are modelled by exact rationals, so the arithmetic of
convert_gps_coordinate is exact where the source performs binary floating
point.  Python round rounds half to even, which roundHalfEven reproduces
on rationals.  Fallible Python operations (float coercion, str conversion,
indexing, file access) return Except PyError.  Python dicts are modelled
by association lists with distinct keys built by insert-with-overwrite;
lookup returns the first match.

The value universe is stratified: scalars (PyScalar), scalars-or-tuples
(PyFlat, the values of the GPSInfo sub-dict), and top-level tag values
(PyVal: scalars, tuples of scalars, or the int-keyed GPSInfo sub-dict).
Real EXIF data fits this stratification (GPS coordinates are tuples of
rationals); no claim involves deeper nesting.
-/

namespace MetadataExtractor

/-- Keys of the top-level EXIF tag map: TAGS.get translates numeric tag ids
to names, leaving unknown ids numeric, hence a key is a string or a number.
The GPS sub-map resolved through GPSTAGS has the same shape. -/
abbrev TagKey := Sum String Nat

/-- The Python exception kinds the modelled code can raise. -/
inductive PyError where
  | fileNotFound
  | floatError
  | strError
  | indexError
  | keyError
  | typeError
  | attrError
deriving DecidableEq

/-- Scalar Python values: integers, rational values (PIL IFDRational, whose
float conversion fails when the denominator is zero, modelling a numeric
object whose float call raises), strings, and badStr, an object whose str
call raises (the best-effort stringification failure documented in the
spec). -/
inductive PyScalar where
  | int (n : ℤ)
  | rat (num den : ℤ)
  | str (s : String)
  | badStr
deriving DecidableEq

/-- A value of the GPSInfo sub-dict: a scalar or a tuple of scalars. -/
inductive PyFlat where
  | base (b : PyScalar)
  | tup (elems : List PyScalar)
deriving DecidableEq

/-- A top-level EXIF tag value: a scalar, a tuple of scalars, or the
int-keyed GPSInfo sub-dict. -/
inductive PyVal where
  | base (b : PyScalar)
  | tup (elems : List PyScalar)
  | dict (items : List (Nat × PyFlat))
deriving DecidableEq

/-- The inclusion of sub-dict values into the top-level value universe
(the identity in Python, where there is a single universe). -/
def flatToVal : PyFlat → PyVal
  | PyFlat.base b => PyVal.base b
  | PyFlat.tup l => PyVal.tup l

/-- Python truthiness of scalars: zero numbers and empty strings are falsy. -/
def scalarTruthy : PyScalar → Bool
  | PyScalar.int n => n != 0
  | PyScalar.rat n _ => n != 0
  | PyScalar.str s => s != ""
  | PyScalar.badStr => true

/-- Python truthiness: empty tuples and dicts are falsy. -/
def pyTruthy : PyVal → Bool
  | PyVal.base b => scalarTruthy b
  | PyVal.tup l => !l.isEmpty
  | PyVal.dict l => !l.isEmpty

/-- Truthiness of a dict.get result, where none models Python None. -/
def truthyO : Option PyVal → Bool
  | none => false
  | some v => pyTruthy v

/-- Numeric value of a list of decimal digit characters. -/
def digitsToNat (l : List Char) : ℕ :=
  l.foldl (fun a c => 10 * a + (c.toNat - 48)) 0

/-- Python strip(): remove leading and trailing whitespace. -/
def pyStrip (s : String) : String :=
  String.mk
    (((s.data.dropWhile (fun c => c.isWhitespace)).reverse.dropWhile
      (fun c => c.isWhitespace)).reverse)

/-- Python float(string) on the decimal fragment: optional surrounding
whitespace, optional sign, digits with an optional single decimal point.
Exponent, underscore, inf and nan forms are outside the modelled fragment
and yield none; no claim exercises them. -/
def strToFloat? (s : String) : Option ℚ :=
  let t := (pyStrip s).data
  let p : ℚ × List Char :=
    match t with
    | '-' :: rest => (-1, rest)
    | '+' :: rest => (1, rest)
    | _ => (1, t)
  match p.2.span (fun c => c != '.') with
  | (intPart, []) =>
      if !intPart.isEmpty && intPart.all (fun c => c.isDigit) then
        some (p.1 * (digitsToNat intPart : ℚ))
      else none
  | (intPart, _ :: fracPart) =>
      if fracPart.all (fun c => c != '.') &&
         intPart.all (fun c => c.isDigit) && fracPart.all (fun c => c.isDigit) &&
         (!intPart.isEmpty || !fracPart.isEmpty) then
        some (p.1 * ((digitsToNat intPart : ℚ) +
          (digitsToNat fracPart : ℚ) / (10 : ℚ) ^ fracPart.length))
      else none

/-- Python float(b) on scalars: succeeds on ints, on rationals with nonzero
denominator, and on numeric strings; fails otherwise. -/
def scalarFloat? : PyScalar → Option ℚ
  | PyScalar.int n => some (n : ℚ)
  | PyScalar.rat n d => if d = 0 then none else some ((n : ℚ) / (d : ℚ))
  | PyScalar.str s => strToFloat? s
  | PyScalar.badStr => none

/-- Python float(v): tuples and dicts raise TypeError. -/
def pyFloat? : PyVal → Option ℚ
  | PyVal.base b => scalarFloat? b
  | _ => none

/-- Python hasattr(v, the float slot): true exactly for the numeric values. -/
def hasFloat : PyVal → Bool
  | PyVal.base (PyScalar.int _) => true
  | PyVal.base (PyScalar.rat _ _) => true
  | _ => false

/-- Comma separation used by the composite renderers. -/
def joinComma (l : List String) : String := String.intercalate ", " l

/-- Sequencing of optional strings: some of the list when all are some. -/
def seqOption : List (Option String) → Option (List String)
  | [] => some []
  | none :: _ => none
  | some s :: rest => (seqOption rest).map (fun r => s :: r)

/-- Python str(b) on scalars; fails exactly on badStr.  The exact rendered
text is a modelling choice no claim depends on; only success or failure
matters. -/
def scalarStr? : PyScalar → Option String
  | PyScalar.int n => some (toString n)
  | PyScalar.rat n d => some (toString n ++ "/" ++ toString d)
  | PyScalar.str s => some s
  | PyScalar.badStr => none

/-- Python str on sub-dict values; fails exactly when a badStr occurs. -/
def flatStr? : PyFlat → Option String
  | PyFlat.base b => scalarStr? b
  | PyFlat.tup l =>
      (seqOption (l.map scalarStr?)).map (fun ss => "(" ++ joinComma ss ++ ")")

/-- Python str(v); fails exactly when a badStr occurs in the value. -/
def pyStr? : PyVal → Option String
  | PyVal.base b => scalarStr? b
  | PyVal.tup l =>
      (seqOption (l.map scalarStr?)).map (fun ss => "(" ++ joinComma ss ++ ")")
  | PyVal.dict l =>
      (seqOption (l.map (fun p => (flatStr? p.2).map
          (fun s => toString p.1 ++ ": " ++ s)))).map
        (fun ss => "dict(" ++ joinComma ss ++ ")")

/-- Python dict lookup on an association list (keys are unique in every
list the code builds, so first match is the dict entry). -/
def lookupD {α β : Type} [DecidableEq α] : List (α × β) → α → Option β
  | [], _ => none
  | (a, b) :: t, k => if a = k then some b else lookupD t k

/-- Python dict assignment d[k] = v: overwrite in place if the key exists,
else append, preserving insertion order. -/
def dictInsert {α β : Type} [DecidableEq α] (l : List (α × β)) (k : α) (v : β) :
    List (α × β) :=
  if l.any (fun p => decide (p.1 = k)) then
    l.map (fun p => if p.1 = k then (k, v) else p)
  else l ++ [(k, v)]

/-- Python v[i]: tuple and string indexing, dict key lookup; indexing a
number raises TypeError. -/
def getItem : PyVal → ℕ → Except PyError PyVal
  | PyVal.tup l, i =>
      if h : i < l.length then Except.ok (PyVal.base (l.get ⟨i, h⟩))
      else Except.error PyError.indexError
  | PyVal.dict l, i =>
      match lookupD l i with
      | some v => Except.ok (flatToVal v)
      | none => Except.error PyError.keyError
  | PyVal.base (PyScalar.str s), i =>
      if h : i < s.data.length then
        Except.ok (PyVal.base (PyScalar.str (String.mk [s.data.get ⟨i, h⟩])))
      else Except.error PyError.indexError
  | PyVal.base _, _ => Except.error PyError.typeError

/-- Python round to the nearest integer, rounding halves to the even
neighbour (banker s rounding), on exact rationals. -/
def roundHalfEven (q : ℚ) : ℤ :=
  if Int.fract q < 1 / 2 then ⌊q⌋
  else if 1 / 2 < Int.fract q then ⌊q⌋ + 1
  else if ⌊q⌋ % 2 = 0 then ⌊q⌋ else ⌊q⌋ + 1

/-- Python round(q, n): scale by 10 ^ n, round half to even, scale back. -/
def roundTo (n : ℕ) (q : ℚ) : ℚ :=
  ((roundHalfEven (q * 10 ^ n) : ℤ) : ℚ) / 10 ^ n

/-- The test ref in a list containing S and W from convert_gps_coordinate:
true exactly for the strings S and W. -/
def refNegates : PyVal → Bool
  | PyVal.base (PyScalar.str s) => s == "S" || s == "W"
  | _ => false

/-- convert_gps_coordinate from the source: float the three components,
form degrees + minutes / 60 + seconds / 3600, negate if the reference is S
or W, and round to 6 decimal places.  Failures of indexing or float
coercion propagate as errors. -/
def convert_gps_coordinate (value ref : PyVal) : Except PyError ℚ :=
  match getItem value 0 with
  | Except.error e => Except.error e
  | Except.ok c0 =>
    match pyFloat? c0 with
    | none => Except.error PyError.floatError
    | some degrees =>
      match getItem value 1 with
      | Except.error e => Except.error e
      | Except.ok c1 =>
        match pyFloat? c1 with
        | none => Except.error PyError.floatError
        | some minutes =>
          match getItem value 2 with
          | Except.error e => Except.error e
          | Except.ok c2 =>
            match pyFloat? c2 with
            | none => Except.error PyError.floatError
            | some seconds =>
              let decimal := degrees + minutes / 60 + seconds / 3600
              Except.ok (roundTo 6 (if refNegates ref then -decimal else decimal))

/-- PIL.ExifTags.GPSTAGS: the secondary name resolution table for the
int-keyed GPSInfo sub-dict. -/
def GPSTAGS : ℕ → Option String
  | 0 => some "GPSVersionID"
  | 1 => some "GPSLatitudeRef"
  | 2 => some "GPSLatitude"
  | 3 => some "GPSLongitudeRef"
  | 4 => some "GPSLongitude"
  | 5 => some "GPSAltitudeRef"
  | 6 => some "GPSAltitude"
  | 7 => some "GPSTimeStamp"
  | 8 => some "GPSSatellites"
  | 9 => some "GPSStatus"
  | 10 => some "GPSMeasureMode"
  | 11 => some "GPSDOP"
  | 12 => some "GPSSpeedRef"
  | 13 => some "GPSSpeed"
  | 14 => some "GPSTrackRef"
  | 15 => some "GPSTrack"
  | 16 => some "GPSImgDirectionRef"
  | 17 => some "GPSImgDirection"
  | 18 => some "GPSMapDatum"
  | 19 => some "GPSDestLatitudeRef"
  | 20 => some "GPSDestLatitude"
  | 21 => some "GPSDestLongitudeRef"
  | 22 => some "GPSDestLongitude"
  | 23 => some "GPSDestBearingRef"
  | 24 => some "GPSDestBearing"
  | 25 => some "GPSDestDistanceRef"
  | 26 => some "GPSDestDistance"
  | 27 => some "GPSProcessingMethod"
  | 28 => some "GPSAreaInformation"
  | 29 => some "GPSDateStamp"
  | 30 => some "GPSDifferential"
  | 31 => some "GPSHPositioningError"
  | _ => none

/-- The loop gps[GPSTAGS.get(key, key)] = val of extract_gps: rebuild the
GPSInfo sub-dict with keys resolved through GPSTAGS, unresolved ids kept
numeric; values are injected into the top-level value universe. -/
def resolveGps (items : List (Nat × PyFlat)) : List (TagKey × PyVal) :=
  items.foldl (fun acc p =>
    dictInsert acc ((GPSTAGS p.1).elim (Sum.inr p.1) Sum.inl) (flatToVal p.2)) []

/-- The gps result dict of extract_gps: it holds at most the keys latitude,
longitude, maps_url and altitude_meters, each field none when the
corresponding key is absent. -/
structure GpsBlock where
  latitude : Option ℚ
  longitude : Option ℚ
  maps_url : Option String
  altitude_meters : Option ℚ
deriving DecidableEq

/-- The empty gps result dict. -/
def emptyGps : GpsBlock := ⟨none, none, none, none⟩

/-- Decimal rendering of a converted coordinate, standing in for Python
float formatting inside the URL f-string.  The rendered text is exact for
the 6-decimal outputs of the converter; no claim depends on the text
beyond it being a function of the coordinate. -/
def floatRepr (q : ℚ) : String :=
  let a : ℚ := |q|
  let ip : ℕ := (⌊a⌋).toNat
  let frac : ℕ := (⌊Int.fract a * 1000000⌋).toNat
  let s : List Char := (toString frac).data
  let s6 : List Char := List.replicate (6 - s.length) '0' ++ s
  let s7 : List Char := (s6.reverse.dropWhile (fun c => c == '0')).reverse
  (if q < 0 then "-" else "") ++ toString ip ++ "." ++
    (if s7.isEmpty then "0" else String.mk s7)

/-- The fixed Google Maps URL template of extract_gps, string-formatting
the two decimal coordinates. -/
def mapsUrl (la lo : ℚ) : String :=
  "https://maps.google.com/?q=" ++ floatRepr la ++ "," ++ floatRepr lo

/-- Assembly of the gps result dict: the three coordinate keys are set
together when coordinates were computed, the altitude key when an altitude
was computed, and the final return result if result else None of the
source maps the empty dict to None. -/
def mkGpsResult (coords : Option (ℚ × ℚ)) (altO : Option ℚ) : Option GpsBlock :=
  let b : GpsBlock :=
    { latitude := coords.map Prod.fst
      longitude := coords.map Prod.snd
      maps_url := coords.map (fun p => mapsUrl p.1 p.2)
      altitude_meters := altO }
  if b = emptyGps then none else some b

/-- The altitude step of extract_gps: if alt is truthy, float it (failures
propagate) and round to 2 decimal places. -/
def withAlt (coords : Option (ℚ × ℚ)) (alt : Option PyVal) :
    Except PyError (Option GpsBlock) :=
  match alt with
  | none => Except.ok (mkGpsResult coords none)
  | some av =>
    if pyTruthy av then
      match pyFloat? av with
      | none => Except.error PyError.floatError
      | some qa => Except.ok (mkGpsResult coords (some (roundTo 2 qa)))
    else Except.ok (mkGpsResult coords none)

/-- extract_gps from the source: absent or falsy GPSInfo gives None; the
sub-dict is resolved through GPSTAGS; when latitude value and reference
and longitude value and reference are all truthy the two coordinates are
converted (conversion failures propagate) and the URL is formatted; a
truthy altitude is floated and rounded; an empty result dict becomes None.
Calling items() on a truthy non-dict GPSInfo raises AttributeError. -/
def extract_gps (exif : List (TagKey × PyVal)) : Except PyError (Option GpsBlock) :=
  match lookupD exif (Sum.inl "GPSInfo") with
  | none => Except.ok none
  | some gi =>
    if pyTruthy gi then
      match gi with
      | PyVal.dict items =>
        let gps := resolveGps items
        match lookupD gps (Sum.inl "GPSLatitude"),
            lookupD gps (Sum.inl "GPSLatitudeRef"),
            lookupD gps (Sum.inl "GPSLongitude"),
            lookupD gps (Sum.inl "GPSLongitudeRef") with
        | some lv, some lrv, some ov, some orv =>
          if pyTruthy lv && pyTruthy lrv && pyTruthy ov && pyTruthy orv then
            match convert_gps_coordinate lv lrv with
            | Except.error e => Except.error e
            | Except.ok la =>
              match convert_gps_coordinate ov orv with
              | Except.error e => Except.error e
              | Except.ok lo =>
                withAlt (some (la, lo)) (lookupD gps (Sum.inl "GPSAltitude"))
          else withAlt none (lookupD gps (Sum.inl "GPSAltitude"))
        | _, _, _, _ => withAlt none (lookupD gps (Sum.inl "GPSAltitude"))
      | _ => Except.error PyError.attrError
    else Except.ok none

/-- The device tag allow-list of extract_metadata. -/
def deviceTags : List String := ["Make", "Model", "Software", "LensMake", "LensModel"]

/-- The datetime tag allow-list of extract_metadata. -/
def datetimeTags : List String := ["DateTime", "DateTimeOriginal", "DateTimeDigitized"]

/-- The image-settings tag allow-list of extract_metadata. -/
def imageTags : List String :=
  ["ExifImageWidth", "ExifImageHeight", "Orientation", "Flash", "FocalLength",
   "ExposureTime", "FNumber", "ISOSpeedRatings", "WhiteBalance", "ExposureMode"]

/-- The skip set of extract_metadata: all allow-lists plus the three
explicitly excluded tags. -/
def skipTags : List String :=
  deviceTags ++ datetimeTags ++ imageTags ++ ["GPSInfo", "MakerNote", "UserComment"]

/-- Membership of a top-level key in the skip set (numeric keys never
match a string tag name). -/
def skipKey : TagKey → Bool
  | Sum.inl s => decide (s ∈ skipTags)
  | Sum.inr _ => false

/-- The three explicitly excluded tags GPSInfo, MakerNote, UserComment. -/
def excludedKey (k : TagKey) : Bool :=
  decide (k = Sum.inl "GPSInfo" ∨ k = Sum.inl "MakerNote" ∨ k = Sum.inl "UserComment")

/-- An image-settings bucket value: a float or a string. -/
abbrev ImgVal := Sum ℚ String

/-- The two string-copy loops of extract_metadata (device and datetime):
for each tag of the allow-list present in the map, str the value (failures
propagate) and post-process it (strip for device, nothing for datetime). -/
def buildStrTags (exif : List (TagKey × PyVal)) (post : String → String) :
    List String → Except PyError (List (String × String))
  | [] => Except.ok []
  | t :: ts =>
    match lookupD exif (Sum.inl t) with
    | none => buildStrTags exif post ts
    | some v =>
      match pyStr? v with
      | none => Except.error PyError.strError
      | some s =>
        match buildStrTags exif post ts with
        | Except.error e => Except.error e
        | Except.ok rest => Except.ok ((t, post s) :: rest)

/-- The image-settings loop of extract_metadata: try float(val) if the
value has a float slot else str(val); on any exception fall back to
str(val), whose own failure propagates. -/
def buildImage (exif : List (TagKey × PyVal)) :
    List String → Except PyError (List (String × ImgVal))
  | [] => Except.ok []
  | t :: ts =>
    match lookupD exif (Sum.inl t) with
    | none => buildImage exif ts
    | some v =>
      match (if hasFloat v then (pyFloat? v).map Sum.inl
             else (pyStr? v).map Sum.inr : Option ImgVal) with
      | some iv =>
        match buildImage exif ts with
        | Except.error e => Except.error e
        | Except.ok rest => Except.ok ((t, iv) :: rest)
      | none =>
        match pyStr? v with
        | none => Except.error PyError.strError
        | some s =>
          match buildImage exif ts with
          | Except.error e => Except.error e
          | Except.ok rest => Except.ok ((t, Sum.inr s) :: rest)

/-- The catch-all loop of extract_metadata: every tag not in the skip set
is stringified into the other bucket; stringification failures drop the
tag silently. -/
def buildOther : List (TagKey × PyVal) → List (TagKey × String)
  | [] => []
  | (k, v) :: rest =>
    if skipKey k then buildOther rest
    else
      match pyStr? v with
      | some s => (k, s) :: buildOther rest
      | none => buildOther rest

/-- The file block of the report. -/
structure FileInfo where
  path : String
  filename : String
  size_kb : ℚ
deriving DecidableEq

/-- The result dict of extract_metadata. -/
structure Report where
  file : FileInfo
  gps : Option GpsBlock
  device : List (String × String)
  datetime : List (String × String)
  image : List (String × ImgVal)
  other : List (TagKey × String)
deriving DecidableEq

/-- The externally observable state extract_metadata interacts with: the
path strings (os.path.abspath and os.path.basename are external string
operations), whether the file exists, its size, whether PIL can open it,
and the raw id-keyed EXIF map PIL decodes from it (none models a falsy
result of the private getexif call). -/
structure FileEnv where
  path : String
  absPath : String
  baseName : String
  present : Bool
  sizeBytes : ℕ
  openOk : Bool
  raw : Option (List (Nat × PyVal))

/-- The loop of get_exif_data resolving numeric tag ids through the
external TAGS table, unresolved ids kept numeric. -/
def buildTagMap (TAGS : ℕ → Option String) (raw : List (Nat × PyVal)) :
    List (TagKey × PyVal) :=
  raw.foldl (fun acc p =>
    dictInsert acc ((TAGS p.1).elim (Sum.inr p.1) Sum.inl) p.2) []

/-- get_exif_data from the source: a missing file or any open failure is
caught, reported as a message and turned into an empty map; a falsy or
empty raw map gives an empty map; otherwise ids are resolved via TAGS. -/
def get_exif_data (TAGS : ℕ → Option String) (env : FileEnv) :
    List (TagKey × PyVal) :=
  if !env.present || !env.openOk then []
  else
    match env.raw with
    | none => []
    | some raw => if raw.isEmpty then [] else buildTagMap TAGS raw

/-- os.path.getsize, which raises FileNotFoundError on a missing file and
is not wrapped in any try block in extract_metadata. -/
def getsize (env : FileEnv) : Except PyError ℕ :=
  if env.present then Except.ok env.sizeBytes else Except.error PyError.fileNotFound

/-- extract_metadata from the source, after the get_exif_data call, taking
the raw tag map as an argument: build the file block (getsize failures
propagate), return early on an empty map, then fill the gps block and the
four buckets in source order; gps and per-bucket errors propagate. -/
def extract_metadata_with (env : FileEnv) (exif : List (TagKey × PyVal)) :
    Except PyError Report :=
  match getsize env with
  | Except.error e => Except.error e
  | Except.ok sz =>
    let fi : FileInfo := ⟨env.absPath, env.baseName, roundTo 2 ((sz : ℚ) / 1024)⟩
    if exif.isEmpty then Except.ok ⟨fi, none, [], [], [], []⟩
    else
      match extract_gps exif with
      | Except.error e => Except.error e
      | Except.ok gps =>
        match buildStrTags exif pyStrip deviceTags with
        | Except.error e => Except.error e
        | Except.ok dev =>
          match buildStrTags exif id datetimeTags with
          | Except.error e => Except.error e
          | Except.ok dt =>
            match buildImage exif imageTags with
            | Except.error e => Except.error e
            | Except.ok img => Except.ok ⟨fi, gps, dev, dt, img, buildOther exif⟩

/-- extract_metadata from the source: obtain the raw map via get_exif_data
and process it. -/
def extract_metadata (TAGS : ℕ → Option String) (env : FileEnv) :
    Except PyError Report :=
  extract_metadata_with env (get_exif_data TAGS env)

/-- Whether a string-keyed bucket contains a given top-level key. -/
def hasKeyStr {γ : Type} (l : List (String × γ)) (k : TagKey) : Bool :=
  l.any (fun p => decide (Sum.inl p.1 = k))

/-- Whether the other bucket contains a given top-level key. -/
def hasKeyTag {γ : Type} (l : List (TagKey × γ)) (k : TagKey) : Bool :=
  l.any (fun p => decide (p.1 = k))

/-- In how many of the four buckets of a report a key occurs. -/
def bucketCount (r : Report) (k : TagKey) : ℕ :=
  (if hasKeyStr r.device k then 1 else 0) +
  (if hasKeyStr r.datetime k then 1 else 0) +
  (if hasKeyStr r.image k then 1 else 0) +
  (if hasKeyTag r.other k then 1 else 0)

/-- A concrete GPSInfo sub-dict with full coordinates: 1 degree 30 minutes
north, 2 degrees west (witness input). -/
def gpsFullItems : List (Nat × PyFlat) :=
  [(1, PyFlat.base (PyScalar.str "N")),
   (2, PyFlat.tup [PyScalar.int 1, PyScalar.int 30, PyScalar.int 0]),
   (3, PyFlat.base (PyScalar.str "W")),
   (4, PyFlat.tup [PyScalar.int 2, PyScalar.int 0, PyScalar.int 0])]

/-- A concrete EXIF map holding gpsFullItems (witness input). -/
def gpsFullExif : List (TagKey × PyVal) := [(Sum.inl "GPSInfo", PyVal.dict gpsFullItems)]

/-- A concrete GPSInfo sub-dict with only an altitude of 7.5 metres
(witness input). -/
def altOnlyItems : List (Nat × PyFlat) := [(6, PyFlat.base (PyScalar.rat 15 2))]

/-- A concrete EXIF map holding altOnlyItems (witness input). -/
def altOnlyExif : List (TagKey × PyVal) := [(Sum.inl "GPSInfo", PyVal.dict altOnlyItems)]

/-- A concrete EXIF map whose latitude tuple contains a component that
cannot be coerced to a number (witness input). -/
def badLatExif : List (TagKey × PyVal) :=
  [(Sum.inl "GPSInfo", PyVal.dict
    [(1, PyFlat.base (PyScalar.str "N")),
     (2, PyFlat.tup [PyScalar.badStr, PyScalar.int 0, PyScalar.int 0]),
     (3, PyFlat.base (PyScalar.str "E")),
     (4, PyFlat.tup [PyScalar.int 2, PyScalar.int 0, PyScalar.int 0])])]

/-- A concrete image-settings map: an FNumber whose float coercion raises
(denominator zero) and a plain integer ISO value (witness input). -/
def imageSettingsExif : List (TagKey × PyVal) :=
  [(Sum.inl "FNumber", PyVal.base (PyScalar.rat 1 0)),
   (Sum.inl "ISOSpeedRatings", PyVal.base (PyScalar.int 100))]

/-- A concrete environment for a readable 2048-byte file (witness input). -/
def envOk : FileEnv :=
  ⟨"img.jpg", "/w/img.jpg", "img.jpg", true, 2048, true, none⟩

/-- A concrete environment for a missing file (witness input). -/
def envMissing : FileEnv :=
  ⟨"missing.jpg", "/w/missing.jpg", "missing.jpg", false, 0, false, none⟩

/-- A concrete raw tag map exercising every classifier bucket: a device
tag, an image tag, the excluded GPSInfo, an unknown string tag, and an
unknown numeric tag whose stringification fails (witness input). -/
def classifyExif : List (TagKey × PyVal) :=
  [(Sum.inl "Make", PyVal.base (PyScalar.str "Canon")),
   (Sum.inl "FNumber", PyVal.base (PyScalar.int 8)),
   (Sum.inl "GPSInfo", PyVal.dict [(6, PyFlat.base (PyScalar.int 0))]),
   (Sum.inl "Custom", PyVal.base (PyScalar.str "x")),
   (Sum.inr 59932, PyVal.base PyScalar.badStr)]

/-- The report extract_metadata produces on envOk and classifyExif
(witness value). -/
def classifyReport : Report :=
  ⟨⟨"/w/img.jpg", "img.jpg", roundTo 2 (((2048 : ℕ) : ℚ) / 1024)⟩, none,
   [("Make", "Canon")], [],
   [("FNumber", Sum.inl ((8 : ℤ) : ℚ))],
   [(Sum.inl "Custom", "x")]⟩

theorem roundHalfEven_intCast (n : ℤ) : roundHalfEven (n : ℚ) = n := by
  unfold roundHalfEven
  rw [Int.fract_intCast, Int.floor_intCast]
  norm_num

theorem roundHalfEven_neg (q : ℚ) : roundHalfEven (-q) = -(roundHalfEven q) := by
  by_cases h0 : Int.fract q = 0
  · have hq : q = ((⌊q⌋ : ℤ) : ℚ) := by
      have h := h0
      unfold Int.fract at h
      linarith
    have hneg : -q = ((-⌊q⌋ : ℤ) : ℚ) := by push_cast; rw [← hq]
    have e1 : roundHalfEven (-q) = -⌊q⌋ := by rw [hneg]; exact roundHalfEven_intCast _
    have e2 : roundHalfEven q = ⌊q⌋ := by
      conv_lhs => rw [hq]
      rw [roundHalfEven_intCast]
    rw [e1, e2]
  · have h1 : Int.fract (-q) = 1 - Int.fract q := Int.fract_neg h0
    have hfr0 : 0 < Int.fract q := lt_of_le_of_ne (Int.fract_nonneg q) (Ne.symm h0)
    have hfr1 : Int.fract q < 1 := Int.fract_lt_one q
    have hfl : ⌊-q⌋ = -⌊q⌋ - 1 := by
      have ha : Int.fract (-q) = -q - ((⌊-q⌋ : ℤ) : ℚ) := rfl
      have hb : Int.fract q = q - ((⌊q⌋ : ℤ) : ℚ) := rfl
      have hc : -q - ((⌊-q⌋ : ℤ) : ℚ) = 1 - (q - ((⌊q⌋ : ℤ) : ℚ)) := by
        rw [← ha, ← hb]; exact h1
      have hd : ((⌊-q⌋ : ℤ) : ℚ) = ((-⌊q⌋ - 1 : ℤ) : ℚ) := by push_cast; linarith
      exact_mod_cast hd
    unfold roundHalfEven
    rw [h1, hfl]
    split_ifs <;> first | omega | (exfalso; linarith)

theorem roundHalfEven_nonneg (q : ℚ) (h : 0 ≤ q) : 0 ≤ roundHalfEven q := by
  have hf : 0 ≤ ⌊q⌋ := Int.floor_nonneg.mpr h
  unfold roundHalfEven
  split_ifs <;> omega

theorem roundTo_neg (n : ℕ) (q : ℚ) : roundTo n (-q) = -(roundTo n q) := by
  unfold roundTo
  rw [neg_mul, roundHalfEven_neg]
  push_cast
  ring

theorem roundTo_nonneg (n : ℕ) (q : ℚ) (h : 0 ≤ q) : 0 ≤ roundTo n q := by
  unfold roundTo
  apply div_nonneg
  · exact_mod_cast roundHalfEven_nonneg _ (mul_nonneg h (by positivity))
  · positivity

/-- Unfolding of the converter on a three-element tuple whose components
all coerce to numbers. -/
theorem convert_tup3 (v0 v1 v2 : PyScalar) (ref : PyVal) (q0 q1 q2 : ℚ)
    (h0 : scalarFloat? v0 = some q0) (h1 : scalarFloat? v1 = some q1)
    (h2 : scalarFloat? v2 = some q2) :
    convert_gps_coordinate (PyVal.tup [v0, v1, v2]) ref =
      Except.ok (roundTo 6 (if refNegates ref then
        -(q0 + q1 / 60 + q2 / 3600) else q0 + q1 / 60 + q2 / 3600)) := by
  have g0 : getItem (PyVal.tup [v0, v1, v2]) 0 = Except.ok (PyVal.base v0) := rfl
  have g1 : getItem (PyVal.tup [v0, v1, v2]) 1 = Except.ok (PyVal.base v1) := rfl
  have g2 : getItem (PyVal.tup [v0, v1, v2]) 2 = Except.ok (PyVal.base v2) := rfl
  simp only [convert_gps_coordinate, g0, g1, g2, pyFloat?, h0, h1, h2]

theorem refNegates_true {s : String} (hs : s = "S" ∨ s = "W") :
    refNegates (PyVal.base (PyScalar.str s)) = true := by
  rcases hs with h | h <;> simp [refNegates, h]

theorem refNegates_false {s : String} (hs : ¬(s = "S" ∨ s = "W")) :
    refNegates (PyVal.base (PyScalar.str s)) = false := by
  push_neg at hs
  simp [refNegates, hs.1, hs.2]

/-- Unfolding of the converter with the negation moved outside the
rounding, which is sound because rounding half to even is odd. -/
theorem convert_tup3_split (v0 v1 v2 : PyScalar) (ref : PyVal) (q0 q1 q2 : ℚ)
    (h0 : scalarFloat? v0 = some q0) (h1 : scalarFloat? v1 = some q1)
    (h2 : scalarFloat? v2 = some q2) :
    convert_gps_coordinate (PyVal.tup [v0, v1, v2]) ref =
      Except.ok (if refNegates ref = true then
        -(roundTo 6 (q0 + q1 / 60 + q2 / 3600))
        else roundTo 6 (q0 + q1 / 60 + q2 / 3600)) := by
  rw [convert_tup3 v0 v1 v2 ref q0 q1 q2 h0 h1 h2]
  cases hr : refNegates ref
  · simp only [Bool.false_eq_true, if_false]
  · simp only [eq_self_iff_true, if_true]
    rw [roundTo_neg]

/-- C1: for every 3-element sequence of numeric components and every
reference string, convert_gps_coordinate returns degrees + minutes / 60 +
seconds / 3600 rounded to 6 decimal places, with the result negated
exactly when the reference is S or W. -/
theorem c1_convert_formula (v0 v1 v2 : PyScalar) (q0 q1 q2 : ℚ) (s : String)
    (h0 : scalarFloat? v0 = some q0) (h1 : scalarFloat? v1 = some q1)
    (h2 : scalarFloat? v2 = some q2) :
    convert_gps_coordinate (PyVal.tup [v0, v1, v2]) (PyVal.base (PyScalar.str s)) =
      Except.ok (if s = "S" ∨ s = "W"
        then -(roundTo 6 (q0 + q1 / 60 + q2 / 3600))
        else roundTo 6 (q0 + q1 / 60 + q2 / 3600)) := by
  rw [convert_tup3_split v0 v1 v2 _ q0 q1 q2 h0 h1 h2]
  by_cases hs : s = "S" ∨ s = "W"
  · rw [if_pos hs, refNegates_true hs]
    simp only [eq_self_iff_true, if_true]
  · rw [if_neg hs, refNegates_false hs]
    simp only [Bool.false_eq_true, if_false]

/-- C1 witness: the spec example 40 degrees 26 minutes 46 seconds north. -/
theorem c1_witness :
    convert_gps_coordinate
        (PyVal.tup [PyScalar.int 40, PyScalar.int 26, PyScalar.int 46])
        (PyVal.base (PyScalar.str "N")) =
      Except.ok (if "N" = "S" ∨ "N" = "W"
        then -(roundTo 6 ((40 : ℚ) + 26 / 60 + 46 / 3600))
        else roundTo 6 ((40 : ℚ) + 26 / 60 + 46 / 3600)) :=
  c1_convert_formula (PyScalar.int 40) (PyScalar.int 26) (PyScalar.int 46)
    40 26 46 "N" (by simp [scalarFloat?]) (by simp [scalarFloat?])
    (by simp [scalarFloat?])

/-- C7 counterexample: converting the zero triplet with reference S yields
0, which is not negative although the reference is S or W, so the claimed
iff between negative sign and southern or western reference fails here. -/
theorem c7_counterexample :
    convert_gps_coordinate
        (PyVal.tup [PyScalar.int 0, PyScalar.int 0, PyScalar.int 0])
        (PyVal.base (PyScalar.str "S")) = Except.ok 0
    ∧ ("S" = "S" ∨ "S" = "W") ∧ ¬((0 : ℚ) < 0) := by
  refine ⟨?_, Or.inl rfl, by norm_num⟩
  rw [convert_tup3_split (PyScalar.int 0) (PyScalar.int 0) (PyScalar.int 0) _
    0 0 0 (by simp [scalarFloat?]) (by simp [scalarFloat?]) (by simp [scalarFloat?]),
    show refNegates (PyVal.base (PyScalar.str "S")) = true by decide]
  simp only [eq_self_iff_true, if_true]
  norm_num [roundTo, roundHalfEven, Int.fract]

/-- C7 (amended): for nonnegative numeric triplets, the converted result is
negative iff the reference is S or W and the rounded value is nonzero. -/
theorem c7_sign_amended (v0 v1 v2 : PyScalar) (q0 q1 q2 q : ℚ) (s : String)
    (h0 : scalarFloat? v0 = some q0) (h1 : scalarFloat? v1 = some q1)
    (h2 : scalarFloat? v2 = some q2)
    (n0 : 0 ≤ q0) (n1 : 0 ≤ q1) (n2 : 0 ≤ q2)
    (hc : convert_gps_coordinate (PyVal.tup [v0, v1, v2])
        (PyVal.base (PyScalar.str s)) = Except.ok q) :
    q < 0 ↔ ((s = "S" ∨ s = "W") ∧ q ≠ 0) := by
  rw [convert_tup3_split v0 v1 v2 _ q0 q1 q2 h0 h1 h2] at hc
  have hm : 0 ≤ q0 + q1 / 60 + q2 / 3600 := by
    have a : 0 ≤ q1 / 60 := div_nonneg n1 (by norm_num)
    have b : 0 ≤ q2 / 3600 := div_nonneg n2 (by norm_num)
    linarith
  have hR : 0 ≤ roundTo 6 (q0 + q1 / 60 + q2 / 3600) := roundTo_nonneg _ _ hm
  by_cases hs : s = "S" ∨ s = "W"
  · rw [refNegates_true hs] at hc
    simp only [eq_self_iff_true, if_true, Except.ok.injEq] at hc
    rw [← hc]
    constructor
    · intro h
      refine ⟨hs, ?_⟩
      intro h0'
      rw [h0'] at h
      exact absurd h (by norm_num)
    · rintro ⟨-, hne⟩
      have hne' : roundTo 6 (q0 + q1 / 60 + q2 / 3600) ≠ 0 := by
        intro h
        exact hne (by rw [h]; ring)
      have : 0 < roundTo 6 (q0 + q1 / 60 + q2 / 3600) := lt_of_le_of_ne hR (Ne.symm hne')
      linarith
  · rw [refNegates_false hs] at hc
    simp only [Bool.false_eq_true, if_false, Except.ok.injEq] at hc
    rw [← hc]
    constructor
    · intro h
      exact absurd h (not_lt.mpr hR)
    · rintro ⟨hs', -⟩
      exact absurd hs' hs

/-- C7 witness for the amended claim: 1 degree 30 minutes south converts to
-1.5, which is negative, matching the amended iff. -/
theorem c7_witness :
    (-(3 / 2) : ℚ) < 0 ↔ (("S" = "S" ∨ "S" = "W") ∧ (-(3 / 2) : ℚ) ≠ 0) := by
  have hc : convert_gps_coordinate
      (PyVal.tup [PyScalar.int 1, PyScalar.int 30, PyScalar.int 0])
      (PyVal.base (PyScalar.str "S")) = Except.ok (-(3 / 2)) := by
    rw [convert_tup3_split (PyScalar.int 1) (PyScalar.int 30) (PyScalar.int 0) _
      1 30 0 (by simp [scalarFloat?]) (by simp [scalarFloat?]) (by simp [scalarFloat?]),
      show refNegates (PyVal.base (PyScalar.str "S")) = true by decide]
    simp only [eq_self_iff_true, if_true]
    norm_num [roundTo, roundHalfEven, Int.fract]
  exact c7_sign_amended (PyScalar.int 1) (PyScalar.int 30) (PyScalar.int 0)
    1 30 0 (-(3 / 2)) "S" (by simp [scalarFloat?]) (by simp [scalarFloat?])
    (by simp [scalarFloat?]) (by norm_num) (by norm_num) (by norm_num) hc

/-- C8: with numeric components, converting with reference N or E gives a
nonnegative result when the components are nonnegative, and converting
with reference S or W gives exactly the negation of the N or E result. -/
theorem c8_nonneg_and_negation (v0 v1 v2 : PyScalar) (q0 q1 q2 : ℚ)
    (h0 : scalarFloat? v0 = some q0) (h1 : scalarFloat? v1 = some q1)
    (h2 : scalarFloat? v2 = some q2) :
    (∀ s : String, (s = "N" ∨ s = "E") → 0 ≤ q0 → 0 ≤ q1 → 0 ≤ q2 →
      ∃ q, convert_gps_coordinate (PyVal.tup [v0, v1, v2])
          (PyVal.base (PyScalar.str s)) = Except.ok q ∧ 0 ≤ q)
    ∧ (∀ s t : String, (s = "S" ∨ s = "W") → (t = "N" ∨ t = "E") → ∀ q,
      convert_gps_coordinate (PyVal.tup [v0, v1, v2])
          (PyVal.base (PyScalar.str t)) = Except.ok q →
      convert_gps_coordinate (PyVal.tup [v0, v1, v2])
          (PyVal.base (PyScalar.str s)) = Except.ok (-q)) := by
  have hne : ∀ s : String, (s = "N" ∨ s = "E") → ¬(s = "S" ∨ s = "W") := by
    rintro s (rfl | rfl) <;> rintro (h | h) <;> simp at h
  constructor
  · intro s hs hn0 hn1 hn2
    refine ⟨roundTo 6 (q0 + q1 / 60 + q2 / 3600), ?_, ?_⟩
    · rw [convert_tup3_split v0 v1 v2 _ q0 q1 q2 h0 h1 h2,
        refNegates_false (hne s hs)]
      simp only [Bool.false_eq_true, if_false]
    · apply roundTo_nonneg
      have a : 0 ≤ q1 / 60 := div_nonneg hn1 (by norm_num)
      have b : 0 ≤ q2 / 3600 := div_nonneg hn2 (by norm_num)
      linarith
  · intro s t hs ht q hq
    rw [convert_tup3_split v0 v1 v2 _ q0 q1 q2 h0 h1 h2,
      refNegates_false (hne t ht)] at hq
    simp only [Bool.false_eq_true, if_false, Except.ok.injEq] at hq
    rw [convert_tup3_split v0 v1 v2 _ q0 q1 q2 h0 h1 h2, refNegates_true hs]
    simp only [eq_self_iff_true, if_true, hq]

/-- C8 witness: the triplet 40, 26, 46 converted north is nonnegative and
converted south is exactly the negation of the north value. -/
theorem c8_witness :
    (∃ q, convert_gps_coordinate
        (PyVal.tup [PyScalar.int 40, PyScalar.int 26, PyScalar.int 46])
        (PyVal.base (PyScalar.str "N")) = Except.ok q ∧ 0 ≤ q)
    ∧ convert_gps_coordinate
        (PyVal.tup [PyScalar.int 40, PyScalar.int 26, PyScalar.int 46])
        (PyVal.base (PyScalar.str "S")) =
      Except.ok (-(40446111 / 1000000 : ℚ)) := by
  have hN : convert_gps_coordinate
      (PyVal.tup [PyScalar.int 40, PyScalar.int 26, PyScalar.int 46])
      (PyVal.base (PyScalar.str "N")) = Except.ok (40446111 / 1000000 : ℚ) := by
    rw [convert_tup3_split (PyScalar.int 40) (PyScalar.int 26) (PyScalar.int 46) _
      40 26 46 (by simp [scalarFloat?]) (by simp [scalarFloat?]) (by simp [scalarFloat?]),
      show refNegates (PyVal.base (PyScalar.str "N")) = false by decide]
    simp only [Bool.false_eq_true, if_false]
    norm_num [roundTo, roundHalfEven, Int.fract]
  refine ⟨?_, ?_⟩
  · exact (c8_nonneg_and_negation (PyScalar.int 40) (PyScalar.int 26)
      (PyScalar.int 46) 40 26 46 (by simp [scalarFloat?]) (by simp [scalarFloat?])
      (by simp [scalarFloat?])).1 "N" (Or.inl rfl)
      (by norm_num) (by norm_num) (by norm_num)
  · exact (c8_nonneg_and_negation (PyScalar.int 40) (PyScalar.int 26)
      (PyScalar.int 46) 40 26 46 (by simp [scalarFloat?]) (by simp [scalarFloat?])
      (by simp [scalarFloat?])).2 "S" "N" (Or.inl rfl) (Or.inl rfl)
      (40446111 / 1000000 : ℚ) hN

theorem items_ne_nil_of_lookup {items : List (Nat × PyFlat)} {k : TagKey} {v : PyVal}
    (h : lookupD (resolveGps items) k = some v) : items ≠ [] := by
  rintro rfl
  simp [resolveGps, lookupD] at h

theorem pyTruthy_dict_ne_nil {items : List (Nat × PyFlat)} (h : items ≠ []) :
    pyTruthy (PyVal.dict items) = true := by
  cases items with
  | nil => exact absurd rfl h
  | cons a t => rfl

theorem mkGpsResult_some_coords (p : ℚ × ℚ) (altO : Option ℚ) :
    mkGpsResult (some p) altO =
      some ⟨some p.1, some p.2, some (mapsUrl p.1 p.2), altO⟩ := by
  simp [mkGpsResult, emptyGps]

theorem mkGpsResult_none_none : mkGpsResult none none = none := by
  simp [mkGpsResult, emptyGps]

theorem mkGpsResult_none_some (qa : ℚ) :
    mkGpsResult none (some qa) = some ⟨none, none, none, some qa⟩ := by
  simp [mkGpsResult, emptyGps]

theorem withAlt_none (coords : Option (ℚ × ℚ)) :
    withAlt coords none = Except.ok (mkGpsResult coords none) := rfl

theorem withAlt_some_false (coords : Option (ℚ × ℚ)) (av : PyVal)
    (h : pyTruthy av = false) :
    withAlt coords (some av) = Except.ok (mkGpsResult coords none) := by
  simp [withAlt, h]

theorem withAlt_some_true (coords : Option (ℚ × ℚ)) (av : PyVal) (qa : ℚ)
    (ht : pyTruthy av = true) (hq : pyFloat? av = some qa) :
    withAlt coords (some av) =
      Except.ok (mkGpsResult coords (some (roundTo 2 qa))) := by
  simp [withAlt, ht, hq]

theorem withAlt_ok_shape {coords : Option (ℚ × ℚ)} {alt : Option PyVal}
    {r : Option GpsBlock} (h : withAlt coords alt = Except.ok r) :
    ∃ altO : Option ℚ, r = mkGpsResult coords altO := by
  cases alt with
  | none => exact ⟨none, (Except.ok.inj h).symm⟩
  | some av =>
    by_cases ht : pyTruthy av = true
    · rcases hq : pyFloat? av with _ | qa
      · rw [withAlt, if_pos ht, hq] at h
        exact Except.noConfusion h
      · rw [withAlt_some_true coords av qa ht hq] at h
        exact ⟨some (roundTo 2 qa), (Except.ok.inj h).symm⟩
    · rw [withAlt_some_false coords av (Bool.eq_false_iff.mpr ht)] at h
      exact ⟨none, (Except.ok.inj h).symm⟩

/-- Case analysis of extract_gps on a truthy GPSInfo dict: either all four
coordinate fields resolve to truthy values and the two conversions are
attempted, or the coordinate branch is skipped entirely. -/
theorem extract_gps_dict_cases (exif : List (TagKey × PyVal))
    (items : List (Nat × PyFlat))
    (hg : lookupD exif (Sum.inl "GPSInfo") = some (PyVal.dict items))
    (hne : items ≠ []) :
    (∃ lv lrv ov orv : PyVal,
      lookupD (resolveGps items) (Sum.inl "GPSLatitude") = some lv ∧
      lookupD (resolveGps items) (Sum.inl "GPSLatitudeRef") = some lrv ∧
      lookupD (resolveGps items) (Sum.inl "GPSLongitude") = some ov ∧
      lookupD (resolveGps items) (Sum.inl "GPSLongitudeRef") = some orv ∧
      pyTruthy lv = true ∧ pyTruthy lrv = true ∧
      pyTruthy ov = true ∧ pyTruthy orv = true ∧
      extract_gps exif =
        (match convert_gps_coordinate lv lrv with
         | Except.error e => Except.error e
         | Except.ok la =>
           match convert_gps_coordinate ov orv with
           | Except.error e => Except.error e
           | Except.ok lo =>
             withAlt (some (la, lo))
               (lookupD (resolveGps items) (Sum.inl "GPSAltitude"))))
    ∨ ((truthyO (lookupD (resolveGps items) (Sum.inl "GPSLatitude")) = false ∨
        truthyO (lookupD (resolveGps items) (Sum.inl "GPSLatitudeRef")) = false ∨
        truthyO (lookupD (resolveGps items) (Sum.inl "GPSLongitude")) = false ∨
        truthyO (lookupD (resolveGps items) (Sum.inl "GPSLongitudeRef")) = false) ∧
       extract_gps exif =
         withAlt none (lookupD (resolveGps items) (Sum.inl "GPSAltitude"))) := by
  have htd := pyTruthy_dict_ne_nil hne
  rcases e1 : lookupD (resolveGps items) (Sum.inl "GPSLatitude") with _ | lv
  · refine Or.inr ⟨Or.inl rfl, ?_⟩
    simp only [extract_gps, hg, htd, eq_self_iff_true, if_true, e1]
  · rcases e2 : lookupD (resolveGps items) (Sum.inl "GPSLatitudeRef") with _ | lrv
    · refine Or.inr ⟨Or.inr (Or.inl rfl), ?_⟩
      simp only [extract_gps, hg, htd, eq_self_iff_true, if_true, e1, e2]
    · rcases e3 : lookupD (resolveGps items) (Sum.inl "GPSLongitude") with _ | ov
      · refine Or.inr ⟨Or.inr (Or.inr (Or.inl rfl)), ?_⟩
        simp only [extract_gps, hg, htd, eq_self_iff_true, if_true, e1, e2, e3]
      · rcases e4 : lookupD (resolveGps items) (Sum.inl "GPSLongitudeRef") with _ | orv
        · refine Or.inr ⟨Or.inr (Or.inr (Or.inr rfl)), ?_⟩
          simp only [extract_gps, hg, htd, eq_self_iff_true, if_true, e1, e2, e3, e4]
        · rcases hb : (pyTruthy lv && pyTruthy lrv && pyTruthy ov && pyTruthy orv) with _ | _
          · refine Or.inr ⟨?_, ?_⟩
            · simp only [Bool.and_eq_false_iff] at hb
              rcases hb with ((h | h) | h) | h
              · exact Or.inl (by simp [truthyO, h])
              · exact Or.inr (Or.inl (by simp [truthyO, h]))
              · exact Or.inr (Or.inr (Or.inl (by simp [truthyO, h])))
              · exact Or.inr (Or.inr (Or.inr (by simp [truthyO, h])))
            · simp only [extract_gps, hg, htd, eq_self_iff_true, if_true, e1, e2, e3, e4,
                hb, Bool.false_eq_true, if_false]
          · simp only [Bool.and_eq_true] at hb
            refine Or.inl ⟨lv, lrv, ov, orv, rfl, rfl, rfl, rfl,
              hb.1.1.1, hb.1.1.2, hb.1.2, hb.2, ?_⟩
            have hb' : (pyTruthy lv && pyTruthy lrv && pyTruthy ov && pyTruthy orv) = true := by
              simp [hb.1.1.1, hb.1.1.2, hb.1.2, hb.2]
            simp only [extract_gps, hg, htd, eq_self_iff_true, if_true, e1, e2, e3, e4,
              hb', if_true]

/-- C2: when latitude value and reference and longitude value and reference
all resolve to truthy values and the conversions succeed (and a present
truthy altitude is coercible), extract_gps returns a block with the two
converted decimals and the Google Maps URL formatted from them; and when
GPSInfo is absent or falsy, or neither the coordinates nor the altitude
resolve, the gps block is None, never an empty block. -/
theorem c2_gps_block_and_absence (exif : List (TagKey × PyVal))
    (items : List (Nat × PyFlat)) (lv lrv ov orv : PyVal) (qla qlo : ℚ)
    (hg : lookupD exif (Sum.inl "GPSInfo") = some (PyVal.dict items))
    (hlat : lookupD (resolveGps items) (Sum.inl "GPSLatitude") = some lv)
    (hlatr : lookupD (resolveGps items) (Sum.inl "GPSLatitudeRef") = some lrv)
    (hlon : lookupD (resolveGps items) (Sum.inl "GPSLongitude") = some ov)
    (hlonr : lookupD (resolveGps items) (Sum.inl "GPSLongitudeRef") = some orv)
    (htl : pyTruthy lv = true) (htlr : pyTruthy lrv = true)
    (hto : pyTruthy ov = true) (htor : pyTruthy orv = true)
    (hcla : convert_gps_coordinate lv lrv = Except.ok qla)
    (hclo : convert_gps_coordinate ov orv = Except.ok qlo)
    (halt : ∀ av, lookupD (resolveGps items) (Sum.inl "GPSAltitude") = some av →
      pyTruthy av = true → ∃ qa, pyFloat? av = some qa) :
    (∃ b, extract_gps exif = Except.ok (some b) ∧
      b.latitude = some qla ∧ b.longitude = some qlo ∧
      b.maps_url = some (mapsUrl qla qlo))
    ∧ (∀ exif2 : List (TagKey × PyVal),
        lookupD exif2 (Sum.inl "GPSInfo") = none → extract_gps exif2 = Except.ok none)
    ∧ (∀ (exif2 : List (TagKey × PyVal)) (gi : PyVal),
        lookupD exif2 (Sum.inl "GPSInfo") = some gi → pyTruthy gi = false →
        extract_gps exif2 = Except.ok none)
    ∧ (∀ (exif2 : List (TagKey × PyVal)) (items2 : List (Nat × PyFlat)),
        lookupD exif2 (Sum.inl "GPSInfo") = some (PyVal.dict items2) →
        (truthyO (lookupD (resolveGps items2) (Sum.inl "GPSLatitude")) = false ∨
         truthyO (lookupD (resolveGps items2) (Sum.inl "GPSLatitudeRef")) = false ∨
         truthyO (lookupD (resolveGps items2) (Sum.inl "GPSLongitude")) = false ∨
         truthyO (lookupD (resolveGps items2) (Sum.inl "GPSLongitudeRef")) = false) →
        truthyO (lookupD (resolveGps items2) (Sum.inl "GPSAltitude")) = false →
        extract_gps exif2 = Except.ok none) := by
  refine ⟨?_, ?_, ?_, ?_⟩
  · have hne := items_ne_nil_of_lookup hlat
    rcases extract_gps_dict_cases exif items hg hne with
      ⟨lv', lrv', ov', orv', e1, e2, e3, e4, t1, t2, t3, t4, hpath⟩ | ⟨hfl, hpath⟩
    · obtain rfl := Option.some.inj (e1.symm.trans hlat)
      obtain rfl := Option.some.inj (e2.symm.trans hlatr)
      obtain rfl := Option.some.inj (e3.symm.trans hlon)
      obtain rfl := Option.some.inj (e4.symm.trans hlonr)
      simp only [hcla, hclo] at hpath
      rcases ea : lookupD (resolveGps items) (Sum.inl "GPSAltitude") with _ | av
      · rw [ea, withAlt_none, mkGpsResult_some_coords] at hpath
        exact ⟨_, hpath, rfl, rfl, rfl⟩
      · rcases htav : pyTruthy av with _ | _
        · rw [ea, withAlt_some_false _ _ htav, mkGpsResult_some_coords] at hpath
          exact ⟨_, hpath, rfl, rfl, rfl⟩
        · obtain ⟨qa, hqa⟩ := halt av ea htav
          rw [ea, withAlt_some_true _ _ _ htav hqa, mkGpsResult_some_coords] at hpath
          exact ⟨_, hpath, rfl, rfl, rfl⟩
    · exfalso
      rcases hfl with h | h | h | h
      · rw [hlat] at h; simp [truthyO, htl] at h
      · rw [hlatr] at h; simp [truthyO, htlr] at h
      · rw [hlon] at h; simp [truthyO, hto] at h
      · rw [hlonr] at h; simp [truthyO, htor] at h
  · intro exif2 h2
    simp only [extract_gps, h2]
  · intro exif2 gi h2 hf
    simp only [extract_gps, h2, hf, Bool.false_eq_true, if_false]
  · intro exif2 items2 h2 hfl halt2
    by_cases hne2 : items2 = []
    · subst hne2
      have hfd : pyTruthy (PyVal.dict []) = false := rfl
      simp only [extract_gps, h2, hfd, Bool.false_eq_true, if_false]
    · rcases extract_gps_dict_cases exif2 items2 h2 hne2 with
        ⟨lv2, lrv2, ov2, orv2, e1, e2, e3, e4, t1, t2, t3, t4, _⟩ | ⟨_, hpath⟩
      · exfalso
        rcases hfl with h | h | h | h
        · rw [e1] at h; simp [truthyO, t1] at h
        · rw [e2] at h; simp [truthyO, t2] at h
        · rw [e3] at h; simp [truthyO, t3] at h
        · rw [e4] at h; simp [truthyO, t4] at h
      · rw [hpath]
        rcases ea : lookupD (resolveGps items2) (Sum.inl "GPSAltitude") with _ | av
        · rw [withAlt_none, mkGpsResult_none_none]
        · rw [ea] at halt2
          simp only [truthyO] at halt2
          rw [withAlt_some_false _ _ halt2, mkGpsResult_none_none]

/-- C2 witness: a map with latitude 1 degree 30 minutes north and longitude
2 degrees west yields the block with 1.5, -2 and the URL built from them. -/
theorem c2_witness :
    ∃ b, extract_gps gpsFullExif = Except.ok (some b) ∧
      b.latitude = some ((3 : ℚ) / 2) ∧ b.longitude = some (-2 : ℚ) ∧
      b.maps_url = some (mapsUrl ((3 : ℚ) / 2) (-2 : ℚ)) := by
  have hcla : convert_gps_coordinate
      (PyVal.tup [PyScalar.int 1, PyScalar.int 30, PyScalar.int 0])
      (PyVal.base (PyScalar.str "N")) = Except.ok ((3 : ℚ) / 2) := by
    rw [convert_tup3_split (PyScalar.int 1) (PyScalar.int 30) (PyScalar.int 0) _
      1 30 0 (by simp [scalarFloat?]) (by simp [scalarFloat?]) (by simp [scalarFloat?]),
      show refNegates (PyVal.base (PyScalar.str "N")) = false by decide]
    simp only [Bool.false_eq_true, if_false]
    norm_num [roundTo, roundHalfEven, Int.fract]
  have hclo : convert_gps_coordinate
      (PyVal.tup [PyScalar.int 2, PyScalar.int 0, PyScalar.int 0])
      (PyVal.base (PyScalar.str "W")) = Except.ok (-2 : ℚ) := by
    rw [convert_tup3_split (PyScalar.int 2) (PyScalar.int 0) (PyScalar.int 0) _
      2 0 0 (by simp [scalarFloat?]) (by simp [scalarFloat?]) (by simp [scalarFloat?]),
      show refNegates (PyVal.base (PyScalar.str "W")) = true by decide]
    simp only [eq_self_iff_true, if_true]
    norm_num [roundTo, roundHalfEven, Int.fract]
  have halt : ∀ av, lookupD (resolveGps gpsFullItems) (Sum.inl "GPSAltitude") = some av →
      pyTruthy av = true → ∃ qa, pyFloat? av = some qa := by
    intro av hav
    rw [show lookupD (resolveGps gpsFullItems) (Sum.inl "GPSAltitude") = none
      from by decide] at hav
    exact absurd hav (by simp)
  exact (c2_gps_block_and_absence gpsFullExif gpsFullItems
    (PyVal.tup [PyScalar.int 1, PyScalar.int 30, PyScalar.int 0])
    (PyVal.base (PyScalar.str "N"))
    (PyVal.tup [PyScalar.int 2, PyScalar.int 0, PyScalar.int 0])
    (PyVal.base (PyScalar.str "W")) ((3 : ℚ) / 2) (-2 : ℚ)
    (by decide) (by decide) (by decide) (by decide) (by decide)
    (by decide) (by decide) (by decide) (by decide) hcla hclo halt).1

/-- C10: any gps block extract_gps returns carries latitude, longitude and
maps_url either all three (with the URL formatted from the two decimals,
and only when all four coordinate fields were present and truthy) or none
of them; a partial coordinate pair is impossible. -/
theorem c10_coords_all_or_none (exif : List (TagKey × PyVal))
    (r : Option GpsBlock) (b : GpsBlock)
    (h : extract_gps exif = Except.ok r) (hb : r = some b) :
    (∃ la lo, b.latitude = some la ∧ b.longitude = some lo ∧
      b.maps_url = some (mapsUrl la lo) ∧
      ∃ (items : List (Nat × PyFlat)) (lv lrv ov orv : PyVal),
        lookupD exif (Sum.inl "GPSInfo") = some (PyVal.dict items) ∧
        lookupD (resolveGps items) (Sum.inl "GPSLatitude") = some lv ∧
        pyTruthy lv = true ∧
        lookupD (resolveGps items) (Sum.inl "GPSLatitudeRef") = some lrv ∧
        pyTruthy lrv = true ∧
        lookupD (resolveGps items) (Sum.inl "GPSLongitude") = some ov ∧
        pyTruthy ov = true ∧
        lookupD (resolveGps items) (Sum.inl "GPSLongitudeRef") = some orv ∧
        pyTruthy orv = true)
    ∨ (b.latitude = none ∧ b.longitude = none ∧ b.maps_url = none) := by
  subst hb
  rcases hgi : lookupD exif (Sum.inl "GPSInfo") with _ | gi
  · simp only [extract_gps, hgi] at h
    exact absurd h (by simp)
  · rcases htg : pyTruthy gi with _ | _
    · simp only [extract_gps, hgi, htg, Bool.false_eq_true, if_false] at h
      exact absurd h (by simp)
    · cases gi with
      | base bsc =>
        simp only [extract_gps, hgi, htg, eq_self_iff_true, if_true] at h
        exact Except.noConfusion h
      | tup l =>
        simp only [extract_gps, hgi, htg, eq_self_iff_true, if_true] at h
        exact Except.noConfusion h
      | dict items =>
        have hne : items ≠ [] := by
          intro h0
          rw [h0] at htg
          simp [pyTruthy] at htg
        rcases extract_gps_dict_cases exif items hgi hne with
          ⟨lv, lrv, ov, orv, e1, e2, e3, e4, t1, t2, t3, t4, hpath⟩ | ⟨_, hpath⟩
        · rw [hpath] at h
          rcases hc1 : convert_gps_coordinate lv lrv with e | la
          · simp only [hc1] at h
            exact Except.noConfusion h
          · rcases hc2 : convert_gps_coordinate ov orv with e | lo
            · simp only [hc1, hc2] at h
              exact Except.noConfusion h
            · simp only [hc1, hc2] at h
              obtain ⟨altO, hshape⟩ := withAlt_ok_shape h
              rw [mkGpsResult_some_coords] at hshape
              cases Option.some.inj hshape
              exact Or.inl ⟨la, lo, rfl, rfl, rfl, items, lv, lrv, ov, orv, rfl,
                e1, t1, e2, t2, e3, t3, e4, t4⟩
        · rw [hpath] at h
          obtain ⟨altO, hshape⟩ := withAlt_ok_shape h
          cases altO with
          | none =>
            rw [mkGpsResult_none_none] at hshape
            exact Option.noConfusion hshape
          | some qa =>
            rw [mkGpsResult_none_some] at hshape
            cases Option.some.inj hshape
            exact Or.inr ⟨rfl, rfl, rfl⟩

/-- C10 witness: the full-coordinate map yields a block whose three
coordinate fields are all present. -/
theorem c10_witness :
    (∃ la lo, (GpsBlock.mk (some ((3 : ℚ) / 2)) (some (-2 : ℚ))
        (some (mapsUrl ((3 : ℚ) / 2) (-2 : ℚ))) none).latitude = some la ∧
      (GpsBlock.mk (some ((3 : ℚ) / 2)) (some (-2 : ℚ))
        (some (mapsUrl ((3 : ℚ) / 2) (-2 : ℚ))) none).longitude = some lo ∧
      (GpsBlock.mk (some ((3 : ℚ) / 2)) (some (-2 : ℚ))
        (some (mapsUrl ((3 : ℚ) / 2) (-2 : ℚ))) none).maps_url =
          some (mapsUrl la lo) ∧
      ∃ (items : List (Nat × PyFlat)) (lv lrv ov orv : PyVal),
        lookupD gpsFullExif (Sum.inl "GPSInfo") = some (PyVal.dict items) ∧
        lookupD (resolveGps items) (Sum.inl "GPSLatitude") = some lv ∧
        pyTruthy lv = true ∧
        lookupD (resolveGps items) (Sum.inl "GPSLatitudeRef") = some lrv ∧
        pyTruthy lrv = true ∧
        lookupD (resolveGps items) (Sum.inl "GPSLongitude") = some ov ∧
        pyTruthy ov = true ∧
        lookupD (resolveGps items) (Sum.inl "GPSLongitudeRef") = some orv ∧
        pyTruthy orv = true)
    ∨ ((GpsBlock.mk (some ((3 : ℚ) / 2)) (some (-2 : ℚ))
        (some (mapsUrl ((3 : ℚ) / 2) (-2 : ℚ))) none).latitude = none ∧
       (GpsBlock.mk (some ((3 : ℚ) / 2)) (some (-2 : ℚ))
        (some (mapsUrl ((3 : ℚ) / 2) (-2 : ℚ))) none).longitude = none ∧
       (GpsBlock.mk (some ((3 : ℚ) / 2)) (some (-2 : ℚ))
        (some (mapsUrl ((3 : ℚ) / 2) (-2 : ℚ))) none).maps_url = none) := by
  have hcla : convert_gps_coordinate
      (PyVal.tup [PyScalar.int 1, PyScalar.int 30, PyScalar.int 0])
      (PyVal.base (PyScalar.str "N")) = Except.ok ((3 : ℚ) / 2) := by
    rw [convert_tup3_split (PyScalar.int 1) (PyScalar.int 30) (PyScalar.int 0) _
      1 30 0 (by simp [scalarFloat?]) (by simp [scalarFloat?]) (by simp [scalarFloat?]),
      show refNegates (PyVal.base (PyScalar.str "N")) = false by decide]
    simp only [Bool.false_eq_true, if_false]
    norm_num [roundTo, roundHalfEven, Int.fract]
  have hclo : convert_gps_coordinate
      (PyVal.tup [PyScalar.int 2, PyScalar.int 0, PyScalar.int 0])
      (PyVal.base (PyScalar.str "W")) = Except.ok (-2 : ℚ) := by
    rw [convert_tup3_split (PyScalar.int 2) (PyScalar.int 0) (PyScalar.int 0) _
      2 0 0 (by simp [scalarFloat?]) (by simp [scalarFloat?]) (by simp [scalarFloat?]),
      show refNegates (PyVal.base (PyScalar.str "W")) = true by decide]
    simp only [eq_self_iff_true, if_true]
    norm_num [roundTo, roundHalfEven, Int.fract]
  have h : extract_gps gpsFullExif = Except.ok (some
      (GpsBlock.mk (some ((3 : ℚ) / 2)) (some (-2 : ℚ))
        (some (mapsUrl ((3 : ℚ) / 2) (-2 : ℚ))) none)) := by
    rcases extract_gps_dict_cases gpsFullExif gpsFullItems (by decide) (by decide) with
      ⟨lv, lrv, ov, orv, e1, e2, e3, e4, t1, t2, t3, t4, hpath⟩ | ⟨hfl, _⟩
    · obtain rfl := Option.some.inj (e1.symm.trans
        (show lookupD (resolveGps gpsFullItems) (Sum.inl "GPSLatitude") =
          some (PyVal.tup [PyScalar.int 1, PyScalar.int 30, PyScalar.int 0]) from by decide))
      obtain rfl := Option.some.inj (e2.symm.trans
        (show lookupD (resolveGps gpsFullItems) (Sum.inl "GPSLatitudeRef") =
          some (PyVal.base (PyScalar.str "N")) from by decide))
      obtain rfl := Option.some.inj (e3.symm.trans
        (show lookupD (resolveGps gpsFullItems) (Sum.inl "GPSLongitude") =
          some (PyVal.tup [PyScalar.int 2, PyScalar.int 0, PyScalar.int 0]) from by decide))
      obtain rfl := Option.some.inj (e4.symm.trans
        (show lookupD (resolveGps gpsFullItems) (Sum.inl "GPSLongitudeRef") =
          some (PyVal.base (PyScalar.str "W")) from by decide))
      rw [hpath]
      simp only [hcla, hclo]
      rw [show lookupD (resolveGps gpsFullItems) (Sum.inl "GPSAltitude") = none
        from by decide, withAlt_none, mkGpsResult_some_coords]
    · exfalso
      rcases hfl with h | h | h | h <;> revert h <;> decide
  exact c10_coords_all_or_none gpsFullExif _ _ h rfl

/-- C5 counterexample: a GPSInfo sub-mapping holding the altitude value 0
(sea level) has an altitude value present, yet the gps block is absent
entirely, because the source tests the value for truthiness, not for
presence, so the claimed inclusion of every present altitude fails. -/
theorem c5_counterexample :
    lookupD (resolveGps [(6, PyFlat.base (PyScalar.int 0))]) (Sum.inl "GPSAltitude") =
      some (PyVal.base (PyScalar.int 0))
    ∧ extract_gps [(Sum.inl "GPSInfo", PyVal.dict [(6, PyFlat.base (PyScalar.int 0))])] =
      Except.ok none := by
  constructor
  · decide
  · rfl

/-- C5 (amended): when the altitude value is present, truthy and float
coercible, every successful extract_gps result is a block that includes
the altitude rounded to 2 decimal places, independently of whether
latitude and longitude are present. -/
theorem c5_altitude_amended (exif : List (TagKey × PyVal))
    (items : List (Nat × PyFlat)) (av : PyVal) (qa : ℚ) (r : Option GpsBlock)
    (hg : lookupD exif (Sum.inl "GPSInfo") = some (PyVal.dict items))
    (halt : lookupD (resolveGps items) (Sum.inl "GPSAltitude") = some av)
    (htav : pyTruthy av = true) (hqa : pyFloat? av = some qa)
    (hr : extract_gps exif = Except.ok r) :
    ∃ b, r = some b ∧ b.altitude_meters = some (roundTo 2 qa) := by
  have hne := items_ne_nil_of_lookup halt
  rcases extract_gps_dict_cases exif items hg hne with
    ⟨lv, lrv, ov, orv, e1, e2, e3, e4, t1, t2, t3, t4, hpath⟩ | ⟨_, hpath⟩
  · rw [hpath] at hr
    rcases hc1 : convert_gps_coordinate lv lrv with e | la
    · simp only [hc1] at hr
      exact Except.noConfusion hr
    · rcases hc2 : convert_gps_coordinate ov orv with e | lo
      · simp only [hc1, hc2] at hr
        exact Except.noConfusion hr
      · simp only [hc1, hc2] at hr
        rw [halt, withAlt_some_true _ _ _ htav hqa, mkGpsResult_some_coords] at hr
        exact ⟨_, (Except.ok.inj hr).symm, rfl⟩
  · rw [hpath, halt, withAlt_some_true _ _ _ htav hqa, mkGpsResult_none_some] at hr
    exact ⟨_, (Except.ok.inj hr).symm, rfl⟩

/-- C5 witness for the amended claim: an altitude-only map with altitude
7.5 yields a block whose altitude field is 7.5 rounded to 2 places. -/
theorem c5_witness :
    ∃ b, (some (GpsBlock.mk none none none (some (roundTo 2 ((15 : ℚ) / 2))))
        : Option GpsBlock) = some b
      ∧ b.altitude_meters = some (roundTo 2 ((15 : ℚ) / 2)) := by
  have hqa : pyFloat? (PyVal.base (PyScalar.rat 15 2)) = some ((15 : ℚ) / 2) := by
    norm_num [pyFloat?, scalarFloat?]
  have hr : extract_gps altOnlyExif = Except.ok
      (some (GpsBlock.mk none none none (some (roundTo 2 ((15 : ℚ) / 2))))) := by
    rcases extract_gps_dict_cases altOnlyExif altOnlyItems (by decide) (by decide) with
      ⟨lv, lrv, ov, orv, e1, _⟩ | ⟨_, hpath⟩
    · exfalso
      rw [show lookupD (resolveGps altOnlyItems) (Sum.inl "GPSLatitude") = none
        from by decide] at e1
      exact Option.noConfusion e1
    · rw [hpath,
        show lookupD (resolveGps altOnlyItems) (Sum.inl "GPSAltitude") =
          some (PyVal.base (PyScalar.rat 15 2)) from by decide,
        withAlt_some_true _ _ _ (by decide) hqa, mkGpsResult_none_some]
  exact c5_altitude_amended altOnlyExif altOnlyItems
    (PyVal.base (PyScalar.rat 15 2)) ((15 : ℚ) / 2) _
    (by decide) (by decide) (by decide) hqa hr

theorem extract_metadata_with_gps_error {exif : List (TagKey × PyVal)} {e : PyError}
    (hne : exif ≠ []) (hgps : extract_gps exif = Except.error e) :
    ∀ env : FileEnv, env.present = true →
      extract_metadata_with env exif = Except.error e := by
  intro env hp
  have hie : exif.isEmpty = false := by
    cases exif with
    | nil => exact absurd rfl hne
    | cons a t => rfl
  simp only [extract_metadata_with, getsize, hp, eq_self_iff_true, if_true, hie,
    Bool.false_eq_true, if_false, hgps]

/-- C4: a latitude or longitude component sequence containing an element
that cannot be coerced to a number makes convert_gps_coordinate raise, and
when the four coordinate fields are present and truthy this error
propagates out of extract_gps and out of extract_metadata to the caller
instead of being downgraded to an absent field. -/
theorem c4_coercion_error_propagates (exif : List (TagKey × PyVal))
    (items : List (Nat × PyFlat)) (lv lrv ov orv : PyVal)
    (hg : lookupD exif (Sum.inl "GPSInfo") = some (PyVal.dict items))
    (hlat : lookupD (resolveGps items) (Sum.inl "GPSLatitude") = some lv)
    (hlatr : lookupD (resolveGps items) (Sum.inl "GPSLatitudeRef") = some lrv)
    (hlon : lookupD (resolveGps items) (Sum.inl "GPSLongitude") = some ov)
    (hlonr : lookupD (resolveGps items) (Sum.inl "GPSLongitudeRef") = some orv)
    (htl : pyTruthy lv = true) (htlr : pyTruthy lrv = true)
    (hto : pyTruthy ov = true) (htor : pyTruthy orv = true)
    (hbad : (∃ e, convert_gps_coordinate lv lrv = Except.error e) ∨
            (∃ e, convert_gps_coordinate ov orv = Except.error e)) :
    (∀ (v0 v1 v2 : PyScalar) (rf : PyVal),
      (scalarFloat? v0 = none ∨ scalarFloat? v1 = none ∨ scalarFloat? v2 = none) →
      ∃ e, convert_gps_coordinate (PyVal.tup [v0, v1, v2]) rf = Except.error e)
    ∧ ∃ e, extract_gps exif = Except.error e ∧
        ∀ env : FileEnv, env.present = true →
          extract_metadata_with env exif = Except.error e := by
  constructor
  · intro v0 v1 v2 rf hnone
    have g0 : getItem (PyVal.tup [v0, v1, v2]) 0 = Except.ok (PyVal.base v0) := rfl
    have g1 : getItem (PyVal.tup [v0, v1, v2]) 1 = Except.ok (PyVal.base v1) := rfl
    have g2 : getItem (PyVal.tup [v0, v1, v2]) 2 = Except.ok (PyVal.base v2) := rfl
    rcases hf0 : scalarFloat? v0 with _ | q0
    · exact ⟨PyError.floatError, by
        simp only [convert_gps_coordinate, g0, pyFloat?, hf0]⟩
    · rcases hf1 : scalarFloat? v1 with _ | q1
      · exact ⟨PyError.floatError, by
          simp only [convert_gps_coordinate, g0, g1, pyFloat?, hf0, hf1]⟩
      · rcases hf2 : scalarFloat? v2 with _ | q2
        · exact ⟨PyError.floatError, by
            simp only [convert_gps_coordinate, g0, g1, g2, pyFloat?, hf0, hf1, hf2]⟩
        · rcases hnone with h | h | h
          · exact Option.noConfusion (h.symm.trans hf0)
          · exact Option.noConfusion (h.symm.trans hf1)
          · exact Option.noConfusion (h.symm.trans hf2)
  · have hne := items_ne_nil_of_lookup hlat
    have hexif_ne : exif ≠ [] := by
      rintro rfl
      exact Option.noConfusion hg
    rcases extract_gps_dict_cases exif items hg hne with
      ⟨lv', lrv', ov', orv', e1, e2, e3, e4, t1, t2, t3, t4, hpath⟩ | ⟨hfl, hpath⟩
    · have hv1 : lv' = lv := Option.some.inj (e1.symm.trans hlat)
      have hv2 : lrv' = lrv := Option.some.inj (e2.symm.trans hlatr)
      have hv3 : ov' = ov := Option.some.inj (e3.symm.trans hlon)
      have hv4 : orv' = orv := Option.some.inj (e4.symm.trans hlonr)
      rw [hv1, hv2, hv3, hv4] at hpath
      rcases hbad with ⟨e, he⟩ | ⟨e, he⟩
      · have hgps : extract_gps exif = Except.error e := by
          rw [hpath]; simp only [he]
        exact ⟨e, hgps, extract_metadata_with_gps_error hexif_ne hgps⟩
      · rcases hc1 : convert_gps_coordinate lv lrv with e1' | la
        · have hgps : extract_gps exif = Except.error e1' := by
            rw [hpath]; simp only [hc1]
          exact ⟨e1', hgps, extract_metadata_with_gps_error hexif_ne hgps⟩
        · have hgps : extract_gps exif = Except.error e := by
            rw [hpath]; simp only [hc1, he]
          exact ⟨e, hgps, extract_metadata_with_gps_error hexif_ne hgps⟩
    · exfalso
      rcases hfl with h | h | h | h
      · rw [hlat] at h; simp [truthyO, htl] at h
      · rw [hlatr] at h; simp [truthyO, htlr] at h
      · rw [hlon] at h; simp [truthyO, hto] at h
      · rw [hlonr] at h; simp [truthyO, htor] at h

/-- C4 witness: a latitude tuple whose first component raises on float
coercion makes extract_gps and extract_metadata fail with that error. -/
theorem c4_witness :
    ∃ e, extract_gps badLatExif = Except.error e ∧
      ∀ env : FileEnv, env.present = true →
        extract_metadata_with env badLatExif = Except.error e := by
  have hbad : (∃ e, convert_gps_coordinate
      (PyVal.tup [PyScalar.badStr, PyScalar.int 0, PyScalar.int 0])
      (PyVal.base (PyScalar.str "N")) = Except.error e) ∨
      (∃ e, convert_gps_coordinate
        (PyVal.tup [PyScalar.int 2, PyScalar.int 0, PyScalar.int 0])
        (PyVal.base (PyScalar.str "E")) = Except.error e) :=
    Or.inl ⟨PyError.floatError, rfl⟩
  exact (c4_coercion_error_propagates badLatExif
    [(1, PyFlat.base (PyScalar.str "N")),
     (2, PyFlat.tup [PyScalar.badStr, PyScalar.int 0, PyScalar.int 0]),
     (3, PyFlat.base (PyScalar.str "E")),
     (4, PyFlat.tup [PyScalar.int 2, PyScalar.int 0, PyScalar.int 0])]
    (PyVal.tup [PyScalar.badStr, PyScalar.int 0, PyScalar.int 0])
    (PyVal.base (PyScalar.str "N"))
    (PyVal.tup [PyScalar.int 2, PyScalar.int 0, PyScalar.int 0])
    (PyVal.base (PyScalar.str "E"))
    (by decide) (by decide) (by decide) (by decide) (by decide)
    (by decide) (by decide) (by decide) (by decide) hbad).2

theorem lookupD_eq_of_mem {α β : Type} [DecidableEq α] :
    ∀ (l : List (α × β)), (l.map Prod.fst).Nodup →
      ∀ (k : α) (v : β), (k, v) ∈ l → lookupD l k = some v := by
  intro l
  induction l with
  | nil => intro _ k v h; exact absurd h (List.not_mem_nil _)
  | cons p t ih =>
    intro hnd k v h
    obtain ⟨a, b⟩ := p
    simp only [List.map_cons, List.nodup_cons] at hnd
    rcases List.mem_cons.mp h with h1 | h2
    · injection h1 with ha hb
      subst ha
      subst hb
      simp [lookupD]
    · have hk : a ≠ k := by
        rintro rfl
        exact hnd.1 (List.mem_map.mpr ⟨(a, v), h2, rfl⟩)
      simp only [lookupD, if_neg hk]
      exact ih hnd.2 k v h2

theorem hasKeyStr_inr {γ : Type} (l : List (String × γ)) (n : ℕ) :
    hasKeyStr l (Sum.inr n) = false := by
  induction l with
  | nil => rfl
  | cons p t ih =>
    simp only [hasKeyStr, List.any_cons] at ih ⊢
    simp [ih]

theorem hasKeyStr_inl {γ : Type} (l : List (String × γ)) (s : String) :
    hasKeyStr l (Sum.inl s) = l.any (fun p => decide (p.1 = s)) := by
  induction l with
  | nil => rfl
  | cons p t ih =>
    simp only [hasKeyStr, List.any_cons] at *
    rw [ih, decide_eq_decide.mpr (by simp : (Sum.inl p.1 = (Sum.inl s : TagKey)) ↔ p.1 = s)]

theorem buildStrTags_mem (exif : List (TagKey × PyVal)) (post : String → String) :
    ∀ (ts : List String) (l : List (String × String)),
      buildStrTags exif post ts = Except.ok l →
      ∀ t : String, (l.any (fun p => decide (p.1 = t)) = true) ↔
        (t ∈ ts ∧ (lookupD exif (Sum.inl t)).isSome = true) := by
  intro ts
  induction ts with
  | nil =>
    intro l h t
    cases Except.ok.inj h
    simp
  | cons t' ts' ih =>
    intro l h t
    rcases hl : lookupD exif (Sum.inl t') with _ | v
    · simp only [buildStrTags, hl] at h
      rw [ih l h t]
      constructor
      · rintro ⟨ht, hs⟩
        exact ⟨List.mem_cons_of_mem _ ht, hs⟩
      · rintro ⟨ht, hs⟩
        rcases List.mem_cons.mp ht with rfl | ht2
        · rw [hl] at hs
          exact absurd hs (by simp)
        · exact ⟨ht2, hs⟩
    · simp only [buildStrTags, hl] at h
      rcases hs : pyStr? v with _ | s
      · simp only [hs] at h
        exact Except.noConfusion h
      · simp only [hs] at h
        rcases hr : buildStrTags exif post ts' with e | rest
        · simp only [hr] at h
          exact Except.noConfusion h
        · simp only [hr] at h
          cases Except.ok.inj h
          by_cases htt : t' = t
          · subst htt
            simp [hl, List.any_cons]
          · simp only [List.any_cons, Bool.or_eq_true, decide_eq_true_eq]
            rw [ih rest hr t]
            simp [List.mem_cons, htt]
            tauto

theorem buildImage_mem_keys (exif : List (TagKey × PyVal)) :
    ∀ (ts : List String) (l : List (String × ImgVal)),
      buildImage exif ts = Except.ok l →
      ∀ t : String, (l.any (fun p => decide (p.1 = t)) = true) ↔
        (t ∈ ts ∧ (lookupD exif (Sum.inl t)).isSome = true) := by
  intro ts
  induction ts with
  | nil =>
    intro l h t
    cases Except.ok.inj h
    simp
  | cons t' ts' ih =>
    intro l h t
    rcases hl : lookupD exif (Sum.inl t') with _ | v
    · simp only [buildImage, hl] at h
      rw [ih l h t]
      constructor
      · rintro ⟨ht, hs⟩
        exact ⟨List.mem_cons_of_mem _ ht, hs⟩
      · rintro ⟨ht, hs⟩
        rcases List.mem_cons.mp ht with rfl | ht2
        · rw [hl] at hs
          exact absurd hs (by simp)
        · exact ⟨ht2, hs⟩
    · simp only [buildImage, hl] at h
      rcases hfv : (if hasFloat v then (pyFloat? v).map Sum.inl
          else (pyStr? v).map Sum.inr : Option ImgVal) with _ | iv
      · simp only [hfv] at h
        rcases hs : pyStr? v with _ | s
        · simp only [hs] at h
          exact Except.noConfusion h
        · simp only [hs] at h
          rcases hr : buildImage exif ts' with e | rest
          · simp only [hr] at h
            exact Except.noConfusion h
          · simp only [hr] at h
            cases Except.ok.inj h
            by_cases htt : t' = t
            · subst htt
              simp [hl, List.any_cons]
            · simp only [List.any_cons, Bool.or_eq_true, decide_eq_true_eq]
              rw [ih rest hr t]
              simp [List.mem_cons, htt]
              tauto
      · simp only [hfv] at h
        rcases hr : buildImage exif ts' with e | rest
        · simp only [hr] at h
          exact Except.noConfusion h
        · simp only [hr] at h
          cases Except.ok.inj h
          by_cases htt : t' = t
          · subst htt
            simp [hl, List.any_cons]
          · simp only [List.any_cons, Bool.or_eq_true, decide_eq_true_eq]
            rw [ih rest hr t]
            simp [List.mem_cons, htt]
            tauto

theorem buildOther_keys_mem :
    ∀ (exif : List (TagKey × PyVal)) (k : TagKey),
      ((buildOther exif).any (fun p => decide (p.1 = k)) = true) →
        ∃ w, (k, w) ∈ exif := by
  intro exif
  induction exif with
  | nil => intro k h; simp [buildOther] at h
  | cons p t ih =>
    intro k h
    obtain ⟨a, b⟩ := p
    by_cases hsk : skipKey a = true
    · simp only [buildOther, hsk, if_true] at h
      obtain ⟨w, hw⟩ := ih k h
      exact ⟨w, List.mem_cons_of_mem _ hw⟩
    · simp only [buildOther, hsk, if_false, Bool.false_eq_true] at h
      rcases hs : pyStr? b with _ | s
      · rw [hs] at h
        obtain ⟨w, hw⟩ := ih k h
        exact ⟨w, List.mem_cons_of_mem _ hw⟩
      · rw [hs] at h
        simp only [List.any_cons, Bool.or_eq_true, decide_eq_true_eq] at h
        rcases h with rfl | h2
        · exact ⟨b, List.mem_cons_self _ _⟩
        · obtain ⟨w, hw⟩ := ih k h2
          exact ⟨w, List.mem_cons_of_mem _ hw⟩

theorem buildOther_cons (k : TagKey) (v : PyVal) (t : List (TagKey × PyVal)) :
    buildOther ((k, v) :: t) =
      (if skipKey k = true then buildOther t
       else match pyStr? v with
            | some s => (k, s) :: buildOther t
            | none => buildOther t) := rfl

theorem buildOther_mem :
    ∀ (exif : List (TagKey × PyVal)), (exif.map Prod.fst).Nodup →
      ∀ (k : TagKey) (v : PyVal), (k, v) ∈ exif →
      (((buildOther exif).any (fun p => decide (p.1 = k)) = true) ↔
        (skipKey k = false ∧ pyStr? v ≠ none)) := by
  intro exif
  induction exif with
  | nil => intro _ k v h; exact absurd h (List.not_mem_nil _)
  | cons p t ih =>
    intro hnd k v h
    obtain ⟨a, b⟩ := p
    simp only [List.map_cons, List.nodup_cons] at hnd
    have hnotin : ∀ w, (a, w) ∈ t → False := by
      intro w hw
      exact hnd.1 (List.mem_map.mpr ⟨(a, w), hw, rfl⟩)
    rcases List.mem_cons.mp h with h1 | h2
    · injection h1 with ha hb
      subst ha
      subst hb
      rw [buildOther_cons]
      by_cases hsk : skipKey k = true
      · rw [if_pos hsk]
        constructor
        · intro hany
          obtain ⟨w, hw⟩ := buildOther_keys_mem t k hany
          exact absurd hw (fun hw => hnotin _ hw)
        · rintro ⟨hf, -⟩
          rw [hsk] at hf
          exact Bool.noConfusion hf
      · have hsk' : skipKey k = false := Bool.eq_false_iff.mpr hsk
        rw [if_neg hsk]
        rcases hs : pyStr? v with _ | s
        · constructor
          · intro hany
            obtain ⟨w, hw⟩ := buildOther_keys_mem t k hany
            exact absurd hw (fun hw => hnotin _ hw)
          · rintro ⟨-, hne⟩
            exact absurd rfl hne
        · constructor
          · intro _
            exact ⟨hsk', fun hc => Option.noConfusion hc⟩
          · intro _
            simp [List.any_cons]
    · have hak : a ≠ k := by
        rintro rfl
        exact hnotin v h2
      rw [buildOther_cons]
      by_cases hsk : skipKey a = true
      · rw [if_pos hsk]
        exact ih hnd.2 k v h2
      · rw [if_neg hsk]
        rcases hs : pyStr? b with _ | s
        · exact ih hnd.2 k v h2
        · rw [← ih hnd.2 k v h2]
          simp only [List.any_cons, Bool.or_eq_true, decide_eq_true_eq]
          constructor
          · rintro (rfl | h3)
            · exact absurd rfl hak
            · exact h3
          · intro h3
            exact Or.inr h3

theorem extract_metadata_with_ok (env : FileEnv) (exif : List (TagKey × PyVal))
    (r : Report) (h : extract_metadata_with env exif = Except.ok r) :
    (exif = [] ∧ r.device = [] ∧ r.datetime = [] ∧ r.image = [] ∧ r.other = [])
    ∨ (buildStrTags exif pyStrip deviceTags = Except.ok r.device ∧
       buildStrTags exif id datetimeTags = Except.ok r.datetime ∧
       buildImage exif imageTags = Except.ok r.image ∧
       r.other = buildOther exif) := by
  rcases hsz : getsize env with e | sz
  · simp only [extract_metadata_with, hsz] at h
    exact Except.noConfusion h
  · simp only [extract_metadata_with, hsz] at h
    rcases hie : exif.isEmpty with _ | _
    · simp only [hie, Bool.false_eq_true, if_false] at h
      rcases hg : extract_gps exif with e | gps
      · simp only [hg] at h
        exact Except.noConfusion h
      · simp only [hg] at h
        rcases hd : buildStrTags exif pyStrip deviceTags with e | dev
        · simp only [hd] at h
          exact Except.noConfusion h
        · simp only [hd] at h
          rcases ht : buildStrTags exif id datetimeTags with e | dt
          · simp only [ht] at h
            exact Except.noConfusion h
          · simp only [ht] at h
            rcases hi : buildImage exif imageTags with e | img
            · simp only [hi] at h
              exact Except.noConfusion h
            · simp only [hi] at h
              cases Except.ok.inj h
              exact Or.inr ⟨rfl, rfl, rfl, rfl⟩
    · have hnil : exif = [] := by
        cases exif with
        | nil => rfl
        | cons a t => exact Bool.noConfusion hie
      simp only [hie, eq_self_iff_true, if_true] at h
      cases Except.ok.inj h
      exact Or.inl ⟨hnil, rfl, rfl, rfl, rfl⟩

/-- C6 (code evaluation at the failing input): on a missing file,
get_exif_data catches the open failure and yields the empty tag map, but
extract_metadata then calls os.path.getsize on the same path, whose
FileNotFoundError is uncaught, so no report is produced. -/
theorem c6_missing_file_crash (TAGS : ℕ → Option String) (env : FileEnv)
    (h : env.present = false) :
    get_exif_data TAGS env = [] ∧
    extract_metadata TAGS env = Except.error PyError.fileNotFound := by
  constructor
  · simp [get_exif_data, h]
  · simp [extract_metadata, extract_metadata_with, getsize, h, get_exif_data]

/-- C6 witness: the concrete missing-file environment. -/
theorem c6_witness :
    get_exif_data (fun _ => none) envMissing = [] ∧
    extract_metadata (fun _ => none) envMissing =
      Except.error PyError.fileNotFound :=
  c6_missing_file_crash (fun _ => none) envMissing rfl

/-- C3: for every raw tag map with distinct keys from which a report is
produced, every top-level tag lands in exactly one of the device,
datetime, image-settings or other buckets, except the three explicitly
excluded tags, which land in none of them, and except a tag outside every
allow-list whose stringification fails, which is silently dropped. -/
theorem c3_classifier_partition (env : FileEnv) (exif : List (TagKey × PyVal))
    (hnd : (exif.map Prod.fst).Nodup) (r : Report)
    (h : extract_metadata_with env exif = Except.ok r) :
    ∀ (k : TagKey) (v : PyVal), (k, v) ∈ exif →
      (excludedKey k = true → bucketCount r k = 0) ∧
      (skipKey k = false → pyStr? v = none → bucketCount r k = 0) ∧
      (excludedKey k = false → (skipKey k = true ∨ pyStr? v ≠ none) →
        bucketCount r k = 1) := by
  intro k v hm
  rcases extract_metadata_with_ok env exif r h with
    ⟨hnil, hd0, ht0, hi0, ho0⟩ | ⟨hd, ht, hi, ho⟩
  · subst hnil
    exact absurd hm (List.not_mem_nil _)
  · have hlk : lookupD exif k = some v := lookupD_eq_of_mem exif hnd k v hm
    cases k with
    | inr n =>
      have hothB : hasKeyTag r.other (Sum.inr n) = true ↔
          (skipKey (Sum.inr n) = false ∧ pyStr? v ≠ none) := by
        unfold hasKeyTag
        rw [ho]
        exact buildOther_mem exif hnd _ v hm
      refine ⟨?_, ?_, ?_⟩
      · intro hexc
        simp [excludedKey] at hexc
      · intro _ hstr
        have hof : hasKeyTag r.other (Sum.inr n) = false :=
          Bool.eq_false_iff.mpr (fun hb => (hothB.mp hb).2 hstr)
        simp [bucketCount, hasKeyStr_inr, hof]
      · intro _ hkeep
        have hstr : pyStr? v ≠ none := by
          rcases hkeep with hk | hk
          · exact Bool.noConfusion hk
          · exact hk
        have hoT : hasKeyTag r.other (Sum.inr n) = true := hothB.mpr ⟨rfl, hstr⟩
        simp [bucketCount, hasKeyStr_inr, hoT]
    | inl s =>
      have hdevB : hasKeyStr r.device (Sum.inl s) = true ↔ s ∈ deviceTags := by
        rw [hasKeyStr_inl, buildStrTags_mem exif pyStrip deviceTags r.device hd s]
        simp [hlk]
      have hdtB : hasKeyStr r.datetime (Sum.inl s) = true ↔ s ∈ datetimeTags := by
        rw [hasKeyStr_inl, buildStrTags_mem exif id datetimeTags r.datetime ht s]
        simp [hlk]
      have himB : hasKeyStr r.image (Sum.inl s) = true ↔ s ∈ imageTags := by
        rw [hasKeyStr_inl, buildImage_mem_keys exif imageTags r.image hi s]
        simp [hlk]
      have hothB : hasKeyTag r.other (Sum.inl s) = true ↔
          (skipKey (Sum.inl s) = false ∧ pyStr? v ≠ none) := by
        unfold hasKeyTag
        rw [ho]
        exact buildOther_mem exif hnd _ v hm
      refine ⟨?_, ?_, ?_⟩
      · intro hexc
        have hsE : s = "GPSInfo" ∨ s = "MakerNote" ∨ s = "UserComment" := by
          simpa [excludedKey] using hexc
        have h1 : s ∉ deviceTags := by rcases hsE with rfl | rfl | rfl <;> decide
        have h2 : s ∉ datetimeTags := by rcases hsE with rfl | rfl | rfl <;> decide
        have h3 : s ∉ imageTags := by rcases hsE with rfl | rfl | rfl <;> decide
        have h4 : skipKey (Sum.inl s) = true := by
          rcases hsE with rfl | rfl | rfl <;> decide
        have hothF : hasKeyTag r.other (Sum.inl s) = false :=
          Bool.eq_false_iff.mpr (fun hb => by
            have hc := (hothB.mp hb).1
            rw [h4] at hc
            exact Bool.noConfusion hc)
        simp [bucketCount, Bool.eq_false_iff.mpr (fun hb => h1 (hdevB.mp hb)),
          Bool.eq_false_iff.mpr (fun hb => h2 (hdtB.mp hb)),
          Bool.eq_false_iff.mpr (fun hb => h3 (himB.mp hb)), hothF]
      · intro hsk hstr
        have hns : s ∉ skipTags := by
          intro hin
          have hc : skipKey (Sum.inl s) = true := by simp [skipKey, hin]
          rw [hsk] at hc
          exact Bool.noConfusion hc
        have h1 : s ∉ deviceTags := fun hin =>
          hns (by simp [skipTags, List.mem_append, hin])
        have h2 : s ∉ datetimeTags := fun hin =>
          hns (by simp [skipTags, List.mem_append, hin])
        have h3 : s ∉ imageTags := fun hin =>
          hns (by simp [skipTags, List.mem_append, hin])
        have hothF : hasKeyTag r.other (Sum.inl s) = false :=
          Bool.eq_false_iff.mpr (fun hb => (hothB.mp hb).2 hstr)
        simp [bucketCount, Bool.eq_false_iff.mpr (fun hb => h1 (hdevB.mp hb)),
          Bool.eq_false_iff.mpr (fun hb => h2 (hdtB.mp hb)),
          Bool.eq_false_iff.mpr (fun hb => h3 (himB.mp hb)), hothF]
      · intro hexc hkeep
        by_cases h1 : s ∈ deviceTags
        · obtain ⟨h2, h3⟩ :=
            (show ∀ x ∈ deviceTags, x ∉ datetimeTags ∧ x ∉ imageTags from by decide) s h1
          have h4 : skipKey (Sum.inl s) = true := by
            simp [skipKey, skipTags, List.mem_append, h1]
          have hothF : hasKeyTag r.other (Sum.inl s) = false :=
            Bool.eq_false_iff.mpr (fun hb => by
              have hc := (hothB.mp hb).1
              rw [h4] at hc
              exact Bool.noConfusion hc)
          simp [bucketCount, hdevB.mpr h1,
            Bool.eq_false_iff.mpr (fun hb => h2 (hdtB.mp hb)),
            Bool.eq_false_iff.mpr (fun hb => h3 (himB.mp hb)), hothF]
        · by_cases h2 : s ∈ datetimeTags
          · obtain h3 :=
              (show ∀ x ∈ datetimeTags, x ∉ imageTags from by decide) s h2
            have h4 : skipKey (Sum.inl s) = true := by
              simp [skipKey, skipTags, List.mem_append, h2]
            have hothF : hasKeyTag r.other (Sum.inl s) = false :=
              Bool.eq_false_iff.mpr (fun hb => by
                have hc := (hothB.mp hb).1
                rw [h4] at hc
                exact Bool.noConfusion hc)
            simp [bucketCount, Bool.eq_false_iff.mpr (fun hb => h1 (hdevB.mp hb)),
              hdtB.mpr h2,
              Bool.eq_false_iff.mpr (fun hb => h3 (himB.mp hb)), hothF]
          · by_cases h3 : s ∈ imageTags
            · have h4 : skipKey (Sum.inl s) = true := by
                simp [skipKey, skipTags, List.mem_append, h3]
              have hothF : hasKeyTag r.other (Sum.inl s) = false :=
                Bool.eq_false_iff.mpr (fun hb => by
                  have hc := (hothB.mp hb).1
                  rw [h4] at hc
                  exact Bool.noConfusion hc)
              simp [bucketCount, Bool.eq_false_iff.mpr (fun hb => h1 (hdevB.mp hb)),
                Bool.eq_false_iff.mpr (fun hb => h2 (hdtB.mp hb)),
                himB.mpr h3, hothF]
            · have hsE : ¬(s = "GPSInfo" ∨ s = "MakerNote" ∨ s = "UserComment") := by
                simpa [excludedKey] using hexc
              have h4 : skipKey (Sum.inl s) = false := by
                simp only [skipKey, skipTags, List.mem_append, decide_eq_false_iff_not]
                intro hin
                simp only [List.mem_cons, List.not_mem_nil, or_false] at hin
                tauto
              have hstr : pyStr? v ≠ none := by
                rcases hkeep with hk | hk
                · rw [h4] at hk
                  exact Bool.noConfusion hk
                · exact hk
              have hoT := hothB.mpr ⟨h4, hstr⟩
              simp [bucketCount, Bool.eq_false_iff.mpr (fun hb => h1 (hdevB.mp hb)),
                Bool.eq_false_iff.mpr (fun hb => h2 (hdtB.mp hb)),
                Bool.eq_false_iff.mpr (fun hb => h3 (himB.mp hb)), hoT]

/-- C3 witness: the device tag Make of the concrete classification run
lands in exactly one bucket. -/
theorem c3_witness :
    (excludedKey (Sum.inl "Make") = true →
      bucketCount classifyReport (Sum.inl "Make") = 0) ∧
    (skipKey (Sum.inl "Make") = false →
      pyStr? (PyVal.base (PyScalar.str "Canon")) = none →
      bucketCount classifyReport (Sum.inl "Make") = 0) ∧
    (excludedKey (Sum.inl "Make") = false →
      (skipKey (Sum.inl "Make") = true ∨
        pyStr? (PyVal.base (PyScalar.str "Canon")) ≠ none) →
      bucketCount classifyReport (Sum.inl "Make") = 1) := by
  have h : extract_metadata_with envOk classifyExif = Except.ok classifyReport := rfl
  exact c3_classifier_partition envOk classifyExif (by decide) classifyReport h
    (Sum.inl "Make") (PyVal.base (PyScalar.str "Canon")) (List.mem_cons_self _ _)

theorem buildImage_empty_exif : ∀ ts : List String, buildImage [] ts = Except.ok [] := by
  intro ts
  induction ts with
  | nil => rfl
  | cons t ts ih =>
    simp only [buildImage, lookupD]
    exact ih

theorem buildImage_total (exif : List (TagKey × PyVal)) :
    ∀ ts : List String,
      (∀ t ∈ ts, ∀ v, lookupD exif (Sum.inl t) = some v → pyStr? v ≠ none) →
      ∃ l, buildImage exif ts = Except.ok l := by
  intro ts
  induction ts with
  | nil => exact fun _ => ⟨[], rfl⟩
  | cons t' ts' ih =>
    intro hall
    obtain ⟨rest, hrest⟩ := ih (fun t ht v hv => hall t (List.mem_cons_of_mem _ ht) v hv)
    rcases hl : lookupD exif (Sum.inl t') with _ | v
    · refine ⟨rest, ?_⟩
      simp only [buildImage, hl]
      exact hrest
    · have hstr := hall t' (List.mem_cons_self _ _) v hl
      rcases hs : pyStr? v with _ | s
      · exact absurd hs hstr
      · rcases hHF : hasFloat v with _ | _
        · refine ⟨(t', Sum.inr s) :: rest, ?_⟩
          simp only [buildImage, hl, hHF, Bool.false_eq_true, if_false, hs,
            Option.map_some', hrest]
        · rcases hq : pyFloat? v with _ | q
          · refine ⟨(t', Sum.inr s) :: rest, ?_⟩
            simp only [buildImage, hl, hHF, eq_self_iff_true, if_true, hq,
              Option.map_none', hs, hrest]
          · refine ⟨(t', Sum.inl q) :: rest, ?_⟩
            simp only [buildImage, hl, hHF, eq_self_iff_true, if_true, hq,
              Option.map_some', hrest]

theorem buildImage_mapsto (exif : List (TagKey × PyVal)) :
    ∀ (ts : List String) (l : List (String × ImgVal)),
      buildImage exif ts = Except.ok l →
      ∀ t, t ∈ ts → ∀ v, lookupD exif (Sum.inl t) = some v →
        ((∀ q : ℚ, hasFloat v = true → pyFloat? v = some q → (t, Sum.inl q) ∈ l) ∧
         (hasFloat v = true → pyFloat? v = none →
           ∀ s, pyStr? v = some s → (t, Sum.inr s) ∈ l) ∧
         (hasFloat v = false → ∀ s, pyStr? v = some s → (t, Sum.inr s) ∈ l)) := by
  intro ts
  induction ts with
  | nil =>
    intro l _ t ht
    exact absurd ht (List.not_mem_nil _)
  | cons t' ts' ih =>
    intro l h t ht v hv
    rcases hl : lookupD exif (Sum.inl t') with _ | v'
    · simp only [buildImage, hl] at h
      rcases List.mem_cons.mp ht with rfl | ht2
      · exact Option.noConfusion (hl.symm.trans hv)
      · exact ih l h t ht2 v hv
    · rcases hHF : hasFloat v' with _ | _
      · -- no float slot: str(val) decides the entry
        rcases hs : pyStr? v' with _ | s
        · simp only [buildImage, hl, hHF, Bool.false_eq_true, if_false, hs,
            Option.map_none'] at h
          exact Except.noConfusion h
        · rcases hr : buildImage exif ts' with e | rest
          · simp only [buildImage, hl, hHF, Bool.false_eq_true, if_false, hs,
              Option.map_some', hr] at h
            exact Except.noConfusion h
          · simp only [buildImage, hl, hHF, Bool.false_eq_true, if_false, hs,
              Option.map_some', hr] at h
            cases Except.ok.inj h
            rcases List.mem_cons.mp ht with rfl | ht2
            · obtain rfl : v' = v := Option.some.inj (hl.symm.trans hv)
              refine ⟨?_, ?_, ?_⟩
              · intro q hq _
                exact absurd hq (by rw [hHF]; exact Bool.noConfusion)
              · intro hq _ _ _
                exact absurd hq (by rw [hHF]; exact Bool.noConfusion)
              · intro _ s' hs'
                obtain rfl : s = s' := Option.some.inj (hs.symm.trans hs')
                exact List.mem_cons_self _ _
            · have hrec := ih rest hr t ht2 v hv
              exact ⟨fun q a b => List.mem_cons_of_mem _ (hrec.1 q a b),
                fun a b s' c => List.mem_cons_of_mem _ (hrec.2.1 a b s' c),
                fun a s' c => List.mem_cons_of_mem _ (hrec.2.2 a s' c)⟩
      · rcases hq : pyFloat? v' with _ | q
        · -- float raises: fall back to str(val)
          rcases hs : pyStr? v' with _ | s
          · simp only [buildImage, hl, hHF, eq_self_iff_true, if_true, hq,
              Option.map_none', hs] at h
            exact Except.noConfusion h
          · rcases hr : buildImage exif ts' with e | rest
            · simp only [buildImage, hl, hHF, eq_self_iff_true, if_true, hq,
                Option.map_none', hs, hr] at h
              exact Except.noConfusion h
            · simp only [buildImage, hl, hHF, eq_self_iff_true, if_true, hq,
                Option.map_none', hs, hr] at h
              cases Except.ok.inj h
              rcases List.mem_cons.mp ht with rfl | ht2
              · obtain rfl : v' = v := Option.some.inj (hl.symm.trans hv)
                refine ⟨?_, ?_, ?_⟩
                · intro q' _ hq'
                  exact Option.noConfusion (hq.symm.trans hq')
                · intro _ _ s' hs'
                  obtain rfl : s = s' := Option.some.inj (hs.symm.trans hs')
                  exact List.mem_cons_self _ _
                · intro hHF' _ _
                  rw [hHF] at hHF'
                  exact Bool.noConfusion hHF'
              · have hrec := ih rest hr t ht2 v hv
                exact ⟨fun q' a b => List.mem_cons_of_mem _ (hrec.1 q' a b),
                  fun a b s' c => List.mem_cons_of_mem _ (hrec.2.1 a b s' c),
                  fun a s' c => List.mem_cons_of_mem _ (hrec.2.2 a s' c)⟩
        · -- float succeeds
          rcases hr : buildImage exif ts' with e | rest
          · simp only [buildImage, hl, hHF, eq_self_iff_true, if_true, hq,
              Option.map_some', hr] at h
            exact Except.noConfusion h
          · simp only [buildImage, hl, hHF, eq_self_iff_true, if_true, hq,
              Option.map_some', hr] at h
            cases Except.ok.inj h
            rcases List.mem_cons.mp ht with rfl | ht2
            · obtain rfl : v' = v := Option.some.inj (hl.symm.trans hv)
              refine ⟨?_, ?_, ?_⟩
              · intro q' _ hq'
                obtain rfl : q = q' := Option.some.inj (hq.symm.trans hq')
                exact List.mem_cons_self _ _
              · intro _ hq' _ _
                exact Option.noConfusion (hq'.symm.trans hq)
              · intro hHF' _ _
                rw [hHF] at hHF'
                exact Bool.noConfusion hHF'
            · have hrec := ih rest hr t ht2 v hv
              exact ⟨fun q' a b => List.mem_cons_of_mem _ (hrec.1 q' a b),
                fun a b s' c => List.mem_cons_of_mem _ (hrec.2.1 a b s' c),
                fun a s' c => List.mem_cons_of_mem _ (hrec.2.2 a s' c)⟩

/-- C9: for every raw tag map, the image bucket of any produced report is
the image-settings pass; that pass succeeds whenever every present
image-tag value is stringifiable (so a coercion failure on one tag does
not abort the remaining tags); and each present image-settings tag value
is coerced to a float when it supports numeric conversion, while a value
without numeric support, or whose coercion raises, is stringified. -/
theorem c9_image_coercion :
    (∀ (env : FileEnv) (exif : List (TagKey × PyVal)) (r : Report),
      extract_metadata_with env exif = Except.ok r →
      buildImage exif imageTags = Except.ok r.image)
    ∧ (∀ exif : List (TagKey × PyVal),
      (∀ t ∈ imageTags, ∀ v, lookupD exif (Sum.inl t) = some v → pyStr? v ≠ none) →
      ∃ l, buildImage exif imageTags = Except.ok l)
    ∧ (∀ (exif : List (TagKey × PyVal)) (l : List (String × ImgVal)),
      buildImage exif imageTags = Except.ok l →
      ∀ t, t ∈ imageTags → ∀ v, lookupD exif (Sum.inl t) = some v →
        ((∀ q : ℚ, hasFloat v = true → pyFloat? v = some q → (t, Sum.inl q) ∈ l) ∧
         (hasFloat v = true → pyFloat? v = none →
           ∀ s, pyStr? v = some s → (t, Sum.inr s) ∈ l) ∧
         (hasFloat v = false → ∀ s, pyStr? v = some s → (t, Sum.inr s) ∈ l))) := by
  refine ⟨?_, fun exif => buildImage_total exif imageTags,
    fun exif => buildImage_mapsto exif imageTags⟩
  intro env exif r h
  rcases extract_metadata_with_ok env exif r h with
    ⟨hnil, -, -, hi0, -⟩ | ⟨-, -, hi, -⟩
  · subst hnil
    rw [hi0]
    exact buildImage_empty_exif imageTags
  · exact hi

/-- C9 witness: an FNumber with a raising float coercion falls back to its
string form, and a numeric ISO value is coerced to a float, both present
in the image bucket of the same run. -/
theorem c9_witness :
    (("FNumber", (Sum.inr "1/0" : ImgVal)) ∈
      [(("FNumber" : String), (Sum.inr "1/0" : ImgVal)),
       ("ISOSpeedRatings", Sum.inl ((100 : ℤ) : ℚ))])
    ∧ (("ISOSpeedRatings", (Sum.inl ((100 : ℤ) : ℚ) : ImgVal)) ∈
      [(("FNumber" : String), (Sum.inr "1/0" : ImgVal)),
       ("ISOSpeedRatings", Sum.inl ((100 : ℤ) : ℚ))]) := by
  have h9 : buildImage imageSettingsExif imageTags = Except.ok
      [(("FNumber" : String), (Sum.inr "1/0" : ImgVal)),
       ("ISOSpeedRatings", Sum.inl ((100 : ℤ) : ℚ))] := rfl
  constructor
  · exact (c9_image_coercion.2.2 imageSettingsExif _ h9 "FNumber" (by decide)
      (PyVal.base (PyScalar.rat 1 0)) (by decide)).2.1 (by decide) (by decide)
      "1/0" (by decide)
  · exact (c9_image_coercion.2.2 imageSettingsExif _ h9 "ISOSpeedRatings" (by decide)
      (PyVal.base (PyScalar.int 100)) (by decide)).1 ((100 : ℤ) : ℚ) (by decide) rfl

end MetadataExtractor
